import Mathlib

/-!
Verification of the Judo JSON scanner (RFC 8259 build configuration).

This file is a shallow embedding of `src/judo_scan.c` and `src/judo_parse.c`
into Lean 4.  Source buffers are modelled as byte functions `Nat → Nat`
(each value is a byte, `0 ≤ b < 256`); the length argument is an `Int`
(a negative length means the input is NUL-terminated, exactly as in the C
code).  The build-time nesting bound `JUDO_MAXDEPTH` is kept as an explicit
parameter `maxdepth` of the scanner functions.  Bounded C loops are embedded
as fuel-indexed recursions; the top-level entry points supply a fuel that is
larger than the maximum input size, so that fuel exhaustion mimics the
loop-exit path and is unreachable on inputs the scanner accepts.
-/

set_option maxRecDepth 10000

namespace Judo

/-- `JUDO_MAXIMUM_INPUT_SIZE`: maximum input size in bytes (1 GB = 2^30). -/
def JUDO_MAXIMUM_INPUT_SIZE : Nat := 0x40000000

/-- `BAD_CHARACTER_ENCODING`: sentinel code point for malformed UTF-8. -/
def BAD_CHARACTER_ENCODING : Nat := 0x110000

/-- `INPUT_TOO_LARGE`: sentinel code point for input exceeding the size cap. -/
def INPUT_TOO_LARGE : Nat := 0x110001

/-- `enum judo_result` (including `JUDO_RESULT_INPUT_TOO_LARGE`, used by
`judo_scan.c`). -/
inductive JudoResult where
  | success
  | badSyntax
  | noBufferSpace
  | illegalByteSequence
  | outOfRange
  | invalidOperation
  | maximumNesting
  | outOfMemory
  | inputTooLarge
  | malfunction
deriving DecidableEq, Repr

/-- `enum judo_token`: semantic tokens emitted by the scanner. -/
inductive JudoToken where
  | invalid
  | null
  | true
  | false
  | number
  | string
  | arrayBegin
  | arrayEnd
  | objectBegin
  | objectEnd
  | objectName
  | eof
deriving DecidableEq, Repr

/-- `struct judo_span`: a byte range in the source text. -/
structure JudoSpan where
  offset : Nat
  length : Nat
deriving DecidableEq, Repr

/-- `enum token_tag`: primitive JSON tokens (internal to the scanner). -/
inductive TokenTag where
  | invalid
  | eof
  | null
  | true
  | false
  | number
  | string
  | identifier
  | comma
  | colon
  | lbrace
  | rbrace
  | lcurlyb
  | rcurlyb
deriving DecidableEq, Repr

/-- `struct token`: a primitive token with its lexeme span. -/
structure Token where
  type : TokenTag
  lexeme : Nat
  lexeme_length : Nat
deriving DecidableEq, Repr

/-! ### UTF-8 codec (`utf8_decode` / `utf8_encode`) -/

/-- The 256-entry leading-byte table of `utf8_decode`, returning the length of
the UTF-8 sequence introduced by a byte (`0` for continuation, overlong and
invalid leading bytes), followed by the four leading-byte masks used to start
the accumulated scalar value. -/
def bytes_needed_for_UTF8_sequence : List Nat :=
  List.replicate 128 1 ++ List.replicate 66 0 ++ List.replicate 30 2 ++
  List.replicate 16 3 ++ [4, 4, 4, 4, 4] ++ List.replicate 11 0 ++
  [0, 0xFF, 0x1F, 0x0F, 0x07]

/-- The 108-entry UTF-8 DFA transition table (9 states × 12 classes). -/
def next_UTF8_DFA : List Nat :=
  [0, 12, 24, 36, 60, 96, 84, 12, 12, 12, 48, 72,
   12, 12, 12, 12, 12, 12, 12, 12, 12, 12, 12, 12,
   12, 0, 12, 12, 12, 12, 12, 0, 12, 0, 12, 12,
   12, 24, 12, 12, 12, 12, 12, 24, 12, 24, 12, 12,
   12, 12, 12, 12, 12, 12, 12, 24, 12, 12, 12, 12,
   12, 24, 12, 12, 12, 12, 12, 12, 12, 24, 12, 12,
   12, 12, 12, 12, 12, 12, 12, 36, 12, 36, 12, 12,
   12, 36, 12, 12, 12, 12, 12, 36, 12, 36, 12, 12,
   12, 36, 12, 12, 12, 12, 12, 12, 12, 12, 12, 12]

/-- The 256-entry byte-to-character-class table of the UTF-8 DFA. -/
def byte_to_character_class : List Nat :=
  List.replicate 128 0 ++ List.replicate 16 1 ++ List.replicate 16 9 ++
  List.replicate 32 7 ++ [8, 8] ++ List.replicate 30 2 ++
  [10] ++ List.replicate 12 3 ++ [4] ++ [3, 3] ++
  [11, 6, 6, 6, 5] ++ List.replicate 11 8

/-- `is_bounded`: whether `byte_count` bytes are available at `cursor`.  For a
NUL-terminated input (`length < 0`) this requires the cursor to be below the
input-size cap and none of the bytes to be NUL; otherwise it compares with the
remaining length. -/
def is_bounded (string : Nat → Nat) (length : Int) (cursor : Nat)
    (byte_count : Nat) : Bool :=
  if length < 0 then
    if JUDO_MAXIMUM_INPUT_SIZE ≤ cursor then Bool.false
    else decide (∀ i < byte_count, string (cursor + i) ≠ 0)
  else
    decide ((byte_count : Int) ≤ length - (cursor : Int))

/-- The sequence length declared by the leading byte at `cursor`
(the first table lookup in `utf8_decode`). -/
def declared_seqlen (string : Nat → Nat) (cursor : Nat) : Nat :=
  bytes_needed_for_UTF8_sequence.getD (string cursor) 0

/-- The declared sequence length after the truncation checks of `utf8_decode`:
it collapses to `0` when a NUL byte occurs inside the sequence (NUL-terminated
mode) or when the sequence overruns the end of the input (length-prefixed
mode). -/
def truncated_seqlen (string : Nat → Nat) (length : Int) (cursor : Nat) : Nat :=
  let seqlen := declared_seqlen string cursor
  if length < 0 then
    if decide (∃ i < seqlen, 1 ≤ i ∧ string (cursor + i) = 0) then 0 else seqlen
  else
    if length - (cursor : Int) < (seqlen : Int) then 0 else seqlen

/-- The inner loop of `utf8_decode`: consume `remaining` continuation bytes
starting at offset `i` from `cursor`, folding them into the accumulated value
and stepping the DFA. -/
def utf8_decode_loop (string : Nat → Nat) (cursor : Nat) :
    Nat → Nat → Nat → Nat → Nat × Nat
  | 0, _, value, state => (value, state)
  | remaining + 1, i, value, state =>
      utf8_decode_loop string cursor remaining (i + 1)
        ((value <<< 6) ||| (string (cursor + i) &&& 0x3F))
        (next_UTF8_DFA.getD (state + byte_to_character_class.getD (string (cursor + i)) 0) 0)

/-- `utf8_decode`: decode one code point at `cursor`, returning the code point
and the number of bytes consumed (`*byte_count`).  Returns the NUL code point
with `0` consumed at end of input, the `BAD_CHARACTER_ENCODING` sentinel for
malformed sequences, and the `INPUT_TOO_LARGE` sentinel when the sequence
would reach the input-size cap. -/
def utf8_decode (string : Nat → Nat) (length : Int) (cursor : Nat) : Nat × Nat :=
  if 0 ≤ length ∧ length ≤ (cursor : Int) then
    (0, 0)
  else
    let seqlen := truncated_seqlen string length cursor
    if JUDO_MAXIMUM_INPUT_SIZE ≤ cursor + seqlen then
      (INPUT_TOO_LARGE, 0)
    else if 0 < seqlen then
      let b0 := string cursor
      let value0 := b0 &&& bytes_needed_for_UTF8_sequence.getD (256 + seqlen) 0
      let state0 := next_UTF8_DFA.getD (byte_to_character_class.getD b0 0) 0
      let vs := utf8_decode_loop string cursor (seqlen - 1) 1 value0 state0
      if vs.2 = 0 then
        if length < 0 ∧ vs.1 = 0 then (0, 0) else (vs.1, seqlen)
      else
        (BAD_CHARACTER_ENCODING, 0)
    else
      (BAD_CHARACTER_ENCODING, 0)

/-- `utf8_encode`: encode a scalar value (`≤ 0x10FFFF`) as 1–4 UTF-8 bytes. -/
def utf8_encode (codepoint : Nat) : List Nat :=
  if codepoint ≤ 0x7F then
    [codepoint]
  else if codepoint ≤ 0x7FF then
    [(codepoint >>> 6) ||| 0xC0, (codepoint &&& 0x3F) ||| 0x80]
  else if codepoint ≤ 0xFFFF then
    [(codepoint >>> 12) ||| 0xE0, ((codepoint >>> 6) &&& 0x3F) ||| 0x80,
     (codepoint &&& 0x3F) ||| 0x80]
  else
    [(codepoint >>> 18) ||| 0xF0, ((codepoint >>> 12) &&& 0x3F) ||| 0x80,
     ((codepoint >>> 6) &&& 0x3F) ||| 0x80, (codepoint &&& 0x3F) ||| 0x80]

/-- `parse_character`: fold a list of hexadecimal digit characters into a code
point (the C function walks a NUL-terminated digit buffer). -/
def parse_character (digits : List Nat) : Nat :=
  digits.foldl (fun codepoint c =>
    let digit :=
      if c ≤ '9'.toNat then c - '0'.toNat
      else if c ≤ 'F'.toNat then (c - 'A'.toNat) + 10
      else (c - 'a'.toNat) + 10
    codepoint * 16 + digit) 0

/-- `is_high_surrogate`. -/
def is_high_surrogate (c : Nat) : Bool := 0xD800 ≤ c ∧ c ≤ 0xDBFF

/-- `is_low_surrogate`. -/
def is_low_surrogate (c : Nat) : Bool := 0xDC00 ≤ c ∧ c ≤ 0xDFFF

/-- `judo_isalpha`. -/
def judo_isalpha (codepoint : Nat) : Bool :=
  ('a'.toNat ≤ codepoint ∧ codepoint ≤ 'z'.toNat) ∨
  ('A'.toNat ≤ codepoint ∧ codepoint ≤ 'Z'.toNat)

/-- `judo_isdigit`. -/
def judo_isdigit (codepoint : Nat) : Bool :=
  '0'.toNat ≤ codepoint ∧ codepoint ≤ '9'.toNat

/-- `judo_isxdigit`. -/
def judo_isxdigit (codepoint : Nat) : Bool :=
  ('a'.toNat ≤ codepoint ∧ codepoint ≤ 'f'.toNat) ∨
  ('A'.toNat ≤ codepoint ∧ codepoint ≤ 'F'.toNat) ∨
  judo_isdigit codepoint

/-- `is_match`: compare `string_length` bytes at `offset` in the source with a
(non-empty, NUL-free) prefix, exactly as the C loop does: a match requires the
lengths to agree and every byte to agree. -/
def is_match (string : Nat → Nat) (offset : Nat) (prefix_ : List Nat)
    (string_length : Nat) : Bool :=
  decide (string_length = prefix_.length) &&
  decide (∀ i < string_length, string (offset + i) = prefix_.getD i 0)

end Judo

namespace Judo

/-! ### Claims C8 and C9: decoder boundary behaviour -/

theorem bytes_needed_getD_zero : bytes_needed_for_UTF8_sequence.getD 0 0 = 1 := by
  decide

/-- C9 (counterexample): at `pos + consumed = MAX_INPUT` exactly, the decoder
returns the `INPUT_TOO_LARGE` sentinel rather than succeeding: the size check
in `utf8_decode` uses `≥`, not `>`. -/
theorem utf8_decode_cap_equality_counterexample :
    utf8_decode (fun _ => 97) (-1) (JUDO_MAXIMUM_INPUT_SIZE - 1) =
      (INPUT_TOO_LARGE, 0) ∧
    (JUDO_MAXIMUM_INPUT_SIZE - 1) +
      truncated_seqlen (fun _ => 97) (-1) (JUDO_MAXIMUM_INPUT_SIZE - 1) =
      JUDO_MAXIMUM_INPUT_SIZE := by
  constructor
  · decide
  · decide

/-- C9 (amended): away from the end-of-input case, `utf8_decode` returns the
`INPUT_TOO_LARGE` sentinel with `consumed = 0` exactly when
`pos + seqlen ≥ MAX_INPUT`, where `seqlen` is the (possibly truncated)
declared sequence length; in particular equality also fails. -/
theorem utf8_decode_input_too_large_iff (string : Nat → Nat) (length : Int)
    (cursor : Nat) (h : ¬(0 ≤ length ∧ length ≤ (cursor : Int))) :
    utf8_decode string length cursor = (INPUT_TOO_LARGE, 0) ↔
      JUDO_MAXIMUM_INPUT_SIZE ≤ cursor + truncated_seqlen string length cursor := by
  unfold utf8_decode
  rw [if_neg h]
  set seqlen := truncated_seqlen string length cursor with hseq
  by_cases hcap : JUDO_MAXIMUM_INPUT_SIZE ≤ cursor + seqlen
  · simp [hcap]
  · rw [if_neg hcap]
    simp only [iff_false_intro hcap, iff_false]
    by_cases hpos : 0 < seqlen
    · rw [if_pos hpos]
      intro hcontra
      by_cases hz :
          (utf8_decode_loop string cursor (seqlen - 1) 1
            (string cursor &&&
              bytes_needed_for_UTF8_sequence.getD (256 + seqlen) 0)
            (next_UTF8_DFA.getD
              (byte_to_character_class.getD (string cursor) 0) 0)).2 = 0
      · rw [if_pos hz] at hcontra
        by_cases hnul : length < 0 ∧
            (utf8_decode_loop string cursor (seqlen - 1) 1
              (string cursor &&&
                bytes_needed_for_UTF8_sequence.getD (256 + seqlen) 0)
              (next_UTF8_DFA.getD
                (byte_to_character_class.getD (string cursor) 0) 0)).1 = 0
        · rw [if_pos hnul] at hcontra
          exact absurd (congrArg Prod.fst hcontra) (by decide)
        · rw [if_neg hnul] at hcontra
          have := congrArg Prod.snd hcontra
          simp only at this
          omega
      · rw [if_neg hz] at hcontra
        exact absurd (congrArg Prod.fst hcontra) (by decide)
    · rw [if_neg hpos]
      intro hcontra
      exact absurd (congrArg Prod.fst hcontra) (by decide)

theorem utf8_decode_input_too_large_iff_witness :
    ¬((0 : Int) ≤ -1 ∧ (-1 : Int) ≤ ((JUDO_MAXIMUM_INPUT_SIZE - 1 : Nat) : Int)) ∧
    utf8_decode (fun _ => 98) (-1) (JUDO_MAXIMUM_INPUT_SIZE - 1) =
      (INPUT_TOO_LARGE, 0) :=
  ⟨by decide,
   (utf8_decode_input_too_large_iff (fun _ => 98) (-1)
      (JUDO_MAXIMUM_INPUT_SIZE - 1) (by decide)).mpr (by decide)⟩

/-- C8 (counterexample): in NUL-terminated mode, a NUL byte in a continuation
position of a declared 2-byte sequence makes the decoder return the
`BAD_CHARACTER_ENCODING` sentinel with `consumed = 0`, not the NUL code
point. -/
theorem utf8_decode_continuation_nul_counterexample :
    utf8_decode (fun i => if i = 0 then 0xC3 else 0) (-1) 0 =
      (BAD_CHARACTER_ENCODING, 0) ∧
    BAD_CHARACTER_ENCODING ≠ 0 := by
  constructor
  · decide
  · decide

/-- C8 (amended): in NUL-terminated mode, a NUL as the *leading* byte is end
of input and decodes to the NUL code point with `consumed = 0`; a NUL in a
*continuation* position of a declared multi-byte sequence collapses the
sequence length to `0` and the decoder returns the `BAD_CHARACTER_ENCODING`
sentinel with `consumed = 0`. -/
theorem utf8_decode_nul_terminated_nul_byte (string : Nat → Nat) (length : Int)
    (cursor : Nat) (hneg : length < 0) :
    (string cursor = 0 → cursor + 1 < JUDO_MAXIMUM_INPUT_SIZE →
      utf8_decode string length cursor = (0, 0)) ∧
    (2 ≤ declared_seqlen string cursor →
      (∃ i < declared_seqlen string cursor, 1 ≤ i ∧ string (cursor + i) = 0) →
      cursor < JUDO_MAXIMUM_INPUT_SIZE →
      utf8_decode string length cursor = (BAD_CHARACTER_ENCODING, 0)) := by
  have hnotEof : ¬(0 ≤ length ∧ length ≤ (cursor : Int)) := by
    intro hc
    omega
  constructor
  · intro hz hcap
    have hdecl : declared_seqlen string cursor = 1 := by
      unfold declared_seqlen
      rw [hz]
      exact bytes_needed_getD_zero
    have htrunc : truncated_seqlen string length cursor = 1 := by
      unfold truncated_seqlen
      rw [if_pos hneg, hdecl, if_neg]
      intro hcontra
      rcases of_decide_eq_true hcontra with ⟨i, hi, h1, _⟩
      omega
    unfold utf8_decode
    rw [if_neg hnotEof]
    simp only [htrunc]
    rw [if_neg (by omega)]
    rw [if_pos (by omega)]
    rw [hz]
    have hval : (0 : Nat) &&& bytes_needed_for_UTF8_sequence.getD (256 + 1) 0 = 0 := by
      decide
    have hstate : next_UTF8_DFA.getD (byte_to_character_class.getD 0 0) 0 = 0 := by
      decide
    rw [hval, hstate]
    simp [utf8_decode_loop, hneg]
  · intro hdecl hnul hcap
    have htrunc : truncated_seqlen string length cursor = 0 := by
      unfold truncated_seqlen
      rw [if_pos hneg, if_pos (decide_eq_true hnul)]
    unfold utf8_decode
    rw [if_neg hnotEof]
    simp only [htrunc]
    rw [if_neg (by omega)]
    rw [if_neg (by omega)]

theorem utf8_decode_nul_terminated_nul_byte_witness :
    ((-1 : Int) < 0) ∧
    utf8_decode (fun i => if i = 0 then 0xC3 else 0) (-1) 0 =
      (BAD_CHARACTER_ENCODING, 0) :=
  ⟨by decide,
   (utf8_decode_nul_terminated_nul_byte (fun i => if i = 0 then 0xC3 else 0)
      (-1) 0 (by decide)).2 (by decide) ⟨1, by decide, by decide, by decide⟩
      (by decide)⟩

end Judo

namespace Judo

/-! ### Stringify (`judo_stringify`, `write_bytes`) -/

/-- Fuel supplied to the embedded C loops.  It exceeds the maximum input size,
so exhaustion only occurs on states the C scanner cannot reach (each loop
iteration makes progress on a cursor bounded by the input size); on exhaustion
each loop behaves like its exit path. -/
def LOOP_FUEL : Nat := 0x80000000

/-- `struct bytebuf`: output accumulator of `judo_stringify`.  `dest` models
the bytes actually written to the caller's buffer. -/
structure Bytebuf where
  written : Nat
  length : Nat
  capacity : Nat
  dest : List Nat
deriving DecidableEq, Repr

/-- `write_bytes`: encode a code point as UTF-8 and append it to the buffer if
it fits in the remaining capacity; the required length is counted in either
case. -/
def write_bytes (b : Bytebuf) (codepoint : Nat) : Bytebuf :=
  let bytes := utf8_encode codepoint
  let bytes_needed := bytes.length
  if b.length + bytes_needed ≤ b.capacity then
    { b with
      dest := b.dest ++ bytes
      written := b.written + bytes_needed
      length := b.length + bytes_needed }
  else
    { b with length := b.length + bytes_needed }

/-- The surrogate-pair combination of `judo_stringify`:
`(high << 10) + low + 0xFCA02400` computed in the 32-bit `unichar` type. -/
def surrogate_combine (high low : Nat) : Nat :=
  ((high <<< 10) + low + 0xFCA02400) % 2 ^ 32

/-- One iteration of the `judo_stringify` loop body (RFC 8259 configuration):
from position `index`, decode one escape sequence or one UTF-8 code point.
Returns `none` for an escape the validator should have rejected
(`JUDO_RESULT_MALFUNCTION` in C), otherwise the code point to write and the
new position.  In the RFC 8259 configuration every iteration writes exactly
one code point. -/
def stringify_step (lexeme : Nat → Nat) (length : Int) (index : Nat) :
    Option (Nat × Nat) :=
  if lexeme index = 92 then
    let c := lexeme (index + 1)
    let index := index + 2
    if c = 34 then some (34, index)
    else if c = 92 then some (92, index)
    else if c = 47 then some (47, index)
    else if c = 98 then some (8, index)
    else if c = 102 then some (12, index)
    else if c = 110 then some (10, index)
    else if c = 114 then some (13, index)
    else if c = 116 then some (9, index)
    else if c = 117 then
      let codepoint := parse_character
        [lexeme index, lexeme (index + 1), lexeme (index + 2), lexeme (index + 3)]
      let index := index + 4
      if is_high_surrogate codepoint then
        let low_surrogate := parse_character
          [lexeme (index + 2), lexeme (index + 3), lexeme (index + 4), lexeme (index + 5)]
        some (surrogate_combine codepoint low_surrogate, index + 6)
      else
        some (codepoint, index)
    else
      none
  else
    let dc := utf8_decode lexeme length index
    some (dc.1, index + dc.2)

/-- The main loop of `judo_stringify` (RFC 8259 configuration): walk the
lexeme between the quotes, decode each escape sequence or UTF-8 code point
via `stringify_step`, and append its UTF-8 encoding to the buffer. -/
def stringify_loop (lexeme : Nat → Nat) (length : Int) (stop : Nat) :
    Nat → Nat → Bytebuf → JudoResult × Bytebuf
  | 0, _, out => (JudoResult.success, out)
  | fuel + 1, index, out =>
    if index < stop then
      match stringify_step lexeme length index with
      | none => (JudoResult.malfunction, out)
      | some (codepoint, index') =>
          stringify_loop lexeme length stop fuel index' (write_bytes out codepoint)
    else
      (JudoResult.success, out)

/-- `judo_stringify` (RFC 8259 configuration): decode a validated string
lexeme into unescaped UTF-8.  `hasBuf` models `buf != NULL`; the result is the
result code, the value stored into `*buflen`, and the bytes written to the
caller's buffer. -/
def judo_stringify (lexeme : Nat → Nat) (length : Int) (hasBuf : Bool)
    (buflen : Int) : JudoResult × Int × List Nat :=
  if buflen < 0 then
    (JudoResult.invalidOperation, buflen, [])
  else if ¬hasBuf ∧ buflen ≠ 0 then
    (JudoResult.invalidOperation, buflen, [])
  else if length ≤ 0 then
    (JudoResult.invalidOperation, buflen, [])
  else
    let out : Bytebuf := { written := 0, length := 0, capacity := buflen.toNat, dest := [] }
    let stop := (length - 1).toNat
    let ro := stringify_loop lexeme length stop LOOP_FUEL 1 out
    if ro.1 = JudoResult.success then
      if hasBuf = Bool.false then
        (JudoResult.success, (ro.2.length : Int), ro.2.dest)
      else if ro.2.capacity < ro.2.length then
        (JudoResult.noBufferSpace, (ro.2.written : Int), ro.2.dest)
      else
        (JudoResult.success, (ro.2.written : Int), ro.2.dest)
    else
      (ro.1, buflen, ro.2.dest)

end Judo

namespace Judo

/-! ### Claims C5 and C7: stringify -/

theorem write_bytes_length (b : Bytebuf) (cp : Nat) :
    (write_bytes b cp).length = b.length + (utf8_encode cp).length := by
  unfold write_bytes
  dsimp only
  split <;> rfl

theorem write_bytes_capacity (b : Bytebuf) (cp : Nat) :
    (write_bytes b cp).capacity = b.capacity := by
  unfold write_bytes
  dsimp only
  split <;> rfl

theorem write_bytes_full (b : Bytebuf) (cp : Nat) (hw : b.written = b.length)
    (hd : b.dest.length = b.length)
    (hfit : b.length + (utf8_encode cp).length ≤ b.capacity) :
    (write_bytes b cp).written = (write_bytes b cp).length ∧
    (write_bytes b cp).dest.length = (write_bytes b cp).length := by
  unfold write_bytes
  dsimp only
  rw [if_pos hfit]
  constructor
  · simpa using hw
  · simpa using hd

theorem stringify_loop_congr (lexeme : Nat → Nat) (length : Int) (stop : Nat)
    (fuel : Nat) :
    ∀ (index : Nat) (b₁ b₂ : Bytebuf), b₁.length = b₂.length →
      (stringify_loop lexeme length stop fuel index b₁).1 =
        (stringify_loop lexeme length stop fuel index b₂).1 ∧
      (stringify_loop lexeme length stop fuel index b₁).2.length =
        (stringify_loop lexeme length stop fuel index b₂).2.length := by
  induction fuel with
  | zero =>
    intro index b₁ b₂ h
    exact ⟨rfl, h⟩
  | succ fuel ih =>
    intro index b₁ b₂ h
    rw [stringify_loop, stringify_loop]
    split
    · cases hstep : stringify_step lexeme length index with
      | none => exact ⟨rfl, h⟩
      | some v =>
        exact ih v.2 _ _ (by rw [write_bytes_length, write_bytes_length, h])
    · exact ⟨rfl, h⟩

theorem stringify_loop_mono (lexeme : Nat → Nat) (length : Int) (stop : Nat)
    (fuel : Nat) :
    ∀ (index : Nat) (b : Bytebuf),
      b.length ≤ (stringify_loop lexeme length stop fuel index b).2.length := by
  induction fuel with
  | zero =>
    intro index b
    exact Nat.le_refl _
  | succ fuel ih =>
    intro index b
    rw [stringify_loop]
    split
    · cases hstep : stringify_step lexeme length index with
      | none => exact Nat.le_refl _
      | some v =>
        refine Nat.le_trans ?_ (ih v.2 (write_bytes b v.1))
        rw [write_bytes_length]
        exact Nat.le_add_right _ _
    · exact Nat.le_refl _

theorem stringify_loop_capacity (lexeme : Nat → Nat) (length : Int) (stop : Nat)
    (fuel : Nat) :
    ∀ (index : Nat) (b : Bytebuf),
      (stringify_loop lexeme length stop fuel index b).2.capacity = b.capacity := by
  induction fuel with
  | zero =>
    intro index b
    rfl
  | succ fuel ih =>
    intro index b
    rw [stringify_loop]
    split
    · cases hstep : stringify_step lexeme length index with
      | none => rfl
      | some v => rw [ih, write_bytes_capacity]
    · rfl

theorem stringify_loop_full_write (lexeme : Nat → Nat) (length : Int)
    (stop : Nat) (fuel : Nat) :
    ∀ (index : Nat) (b : Bytebuf), b.written = b.length →
      b.dest.length = b.length →
      (stringify_loop lexeme length stop fuel index b).2.length ≤ b.capacity →
      (stringify_loop lexeme length stop fuel index b).2.written =
        (stringify_loop lexeme length stop fuel index b).2.length ∧
      (stringify_loop lexeme length stop fuel index b).2.dest.length =
        (stringify_loop lexeme length stop fuel index b).2.length := by
  induction fuel with
  | zero =>
    intro index b hw hd _
    exact ⟨hw, hd⟩
  | succ fuel ih =>
    intro index b hw hd hcap
    rw [stringify_loop] at hcap ⊢
    revert hcap
    split
    · cases hstep : stringify_step lexeme length index with
      | none =>
        intro _
        exact ⟨hw, hd⟩
      | some v =>
        intro hcap
        have hfit : b.length + (utf8_encode v.1).length ≤ b.capacity := by
          have h1 := stringify_loop_mono lexeme length stop fuel v.2 (write_bytes b v.1)
          rw [write_bytes_length] at h1
          exact Nat.le_trans h1 hcap
        obtain ⟨hw', hd'⟩ := write_bytes_full b v.1 hw hd hfit
        refine ih v.2 (write_bytes b v.1) hw' hd' ?_
        rw [write_bytes_capacity]
        exact hcap
    · intro _
      exact ⟨hw, hd⟩

end Judo

namespace Judo

/-- C7: for every lexeme on which `judo_stringify` succeeds in size-query mode
(`buf == NULL`, `*buflen == 0`) — in particular every valid string lexeme —
the byte count it reports equals, for any buffer of sufficient capacity, the
value stored into `*buflen` in write mode and the number of bytes actually
written, and both calls return success. -/
theorem judo_stringify_query_write_agree (lexeme : Nat → Nat) (length : Int)
    (cap : Int)
    (hq : (judo_stringify lexeme length Bool.false 0).1 = JudoResult.success)
    (hcap : (judo_stringify lexeme length Bool.false 0).2.1 ≤ cap) :
    (judo_stringify lexeme length Bool.true cap).1 = JudoResult.success ∧
    (judo_stringify lexeme length Bool.true cap).2.1 =
      (judo_stringify lexeme length Bool.false 0).2.1 ∧
    ((judo_stringify lexeme length Bool.true cap).2.2.length : Int) =
      (judo_stringify lexeme length Bool.false 0).2.1 := by
  by_cases hlen : length ≤ 0
  · exfalso
    rw [judo_stringify] at hq
    rw [if_neg (by omega)] at hq
    rw [if_neg (by simp)] at hq
    rw [if_pos hlen] at hq
    exact absurd hq (by decide)
  · have hq' := hq
    have hcap' := hcap
    rw [judo_stringify] at hq' hcap' ⊢
    rw [if_neg (by omega : ¬((0 : Int) < 0)), if_neg (by simp), if_neg hlen] at hq' hcap'
    set bq : Bytebuf := { written := 0, length := 0, capacity := (0 : Int).toNat, dest := [] }
      with hbq
    set stop := (length - 1).toNat with hstop
    have hqs : (stringify_loop lexeme length stop LOOP_FUEL 1 bq).1 =
        JudoResult.success := by
      by_contra hcontra
      rw [if_neg hcontra] at hq'
      exact hcontra hq'
    rw [if_pos hqs] at hq' hcap'
    simp only [reduceIte] at hq' hcap'
    have hqval : (judo_stringify lexeme length Bool.false 0).2.1 =
        ((stringify_loop lexeme length stop LOOP_FUEL 1 bq).2.length : Int) := by
      rw [judo_stringify]
      rw [if_neg (by omega : ¬((0 : Int) < 0)), if_neg (by simp), if_neg hlen,
        if_pos hqs]
      rfl
    have hq0 : (0 : Int) ≤
        ((stringify_loop lexeme length stop LOOP_FUEL 1 bq).2.length : Int) :=
      Int.ofNat_nonneg _
    have hcapnn : (0 : Int) ≤ cap := le_trans (le_trans hq0 (le_of_eq rfl)) hcap'
    rw [if_neg (by omega : ¬(cap < 0)), if_neg (by simp), if_neg hlen]
    set bw : Bytebuf := { written := 0, length := 0, capacity := cap.toNat, dest := [] }
      with hbw
    obtain ⟨hres, hlen2⟩ := stringify_loop_congr lexeme length stop LOOP_FUEL 1 bw bq rfl
    have hws : (stringify_loop lexeme length stop LOOP_FUEL 1 bw).1 =
        JudoResult.success := by
      rw [hres]; exact hqs
    rw [if_pos hws]
    have hcapw : (stringify_loop lexeme length stop LOOP_FUEL 1 bw).2.capacity =
        cap.toNat := by
      rw [stringify_loop_capacity]
    have hfits : (stringify_loop lexeme length stop LOOP_FUEL 1 bw).2.length ≤
        cap.toNat := by
      rw [hlen2]
      omega
    rw [if_neg (by simp)]
    rw [if_neg (by omega)]
    obtain ⟨hfw, hfd⟩ := stringify_loop_full_write lexeme length stop LOOP_FUEL 1 bw rfl rfl
      hfits
    refine ⟨rfl, ?_, ?_⟩
    · rw [hfw, hlen2, hqval]
    · rw [hfd, hlen2, hqval]

theorem judo_stringify_query_write_agree_witness :
    (judo_stringify (fun i => [34, 97, 98, 92, 110, 34].getD i 0) 6 Bool.false 0).1 =
      JudoResult.success ∧
    (judo_stringify (fun i => [34, 97, 98, 92, 110, 34].getD i 0) 6 Bool.true 10).1 =
      JudoResult.success ∧
    (judo_stringify (fun i => [34, 97, 98, 92, 110, 34].getD i 0) 6 Bool.true 10).2.1 =
      (judo_stringify (fun i => [34, 97, 98, 92, 110, 34].getD i 0) 6 Bool.false 0).2.1 :=
  ⟨by decide,
   (judo_stringify_query_write_agree (fun i => [34, 97, 98, 92, 110, 34].getD i 0) 6 10
      (by decide) (by decide)).1,
   (judo_stringify_query_write_agree (fun i => [34, 97, 98, 92, 110, 34].getD i 0) 6 10
      (by decide) (by decide)).2.1⟩

/-- C5: `judo_stringify` on the 14-byte lexeme holding `𝄞` between
quotes produces exactly the 4-byte UTF-8 encoding of U+1D11E, and for every
high surrogate and low surrogate the 32-bit combination
`(high << 10) + low + 0xFCA02400` equals the scalar of the standard UTF-16
decomposition formula. -/
theorem judo_stringify_surrogate_pair :
    judo_stringify
        (fun i => [34, 92, 117, 68, 56, 51, 52, 92, 117, 68, 68, 49, 69, 34].getD i 0)
        14 Bool.true 4 =
      (JudoResult.success, 4, [0xF0, 0x9D, 0x84, 0x9E]) ∧
    utf8_encode 0x1D11E = [0xF0, 0x9D, 0x84, 0x9E] ∧
    ∀ high low, is_high_surrogate high = Bool.true →
      is_low_surrogate low = Bool.true →
      surrogate_combine high low =
        0x10000 + (high - 0xD800) * 0x400 + (low - 0xDC00) := by
  refine ⟨by decide, by decide, ?_⟩
  intro high low hh hl
  simp only [is_high_surrogate, decide_eq_true_eq] at hh
  simp only [is_low_surrogate, decide_eq_true_eq] at hl
  unfold surrogate_combine
  rw [Nat.shiftLeft_eq]
  omega

theorem judo_stringify_surrogate_pair_witness :
    surrogate_combine 0xD834 0xDD1E = 0x1D11E := by
  have h := judo_stringify_surrogate_pair.2.2 0xD834 0xDD1E (by decide) (by decide)
  rw [h]

end Judo

namespace Judo

/-! ### Scanner state machine (`judo_scan` and helpers, RFC 8259
configuration) -/

/-- Scanner state codes (`SCAN_STATE_*`); value `2` is unused, exactly as in
the source. -/
def SCAN_STATE_ROOT_VALUE : Nat := 0

def SCAN_STATE_FINISHED_PARSING_VALUE : Nat := 1

def SCAN_STATE_PARSE_ARRAY_END_OR_ARRAY_ELEMENT : Nat := 3

def SCAN_STATE_FINISHED_PARSING_ARRAY_ELEMENT : Nat := 4

def SCAN_STATE_PARSE_OBJECT_KEY_OR_OBJECT_END : Nat := 5

def SCAN_STATE_PARSE_OBJECT_VALUE : Nat := 6

def SCAN_STATE_FINISHED_PARSING_OBJECT_VALUE : Nat := 7

def SCAN_STATE_PARSING_ERROR : Nat := 8

def SCAN_STATE_ENCODING_ERROR : Nat := 9

def SCAN_STATE_MAX_NESTING_ERROR : Nat := 10

def SCAN_STATE_FINISHED_PARSING : Nat := 11

/-- `struct judo_stream`: the caller-owned scanner handle.  The state stack
`s_state` is modelled as a function (the C array has `JUDO_MAXDEPTH` slots and
is only indexed below `s_stack`, which the invariant keeps below
`JUDO_MAXDEPTH`); the error message buffer is modelled as a `String`. -/
structure JudoStream where
  s_at : Nat
  whereSpan : JudoSpan
  token : JudoToken
  s_stack : Nat
  s_state : Nat → Nat
  error : String

/-- A zero-initialised `judo_stream` (all fields zero, as the caller must
provide). -/
def zeroStream : JudoStream :=
  { s_at := 0, whereSpan := ⟨0, 0⟩, token := JudoToken.invalid, s_stack := 0,
    s_state := fun _ => 0, error := "" }

/-- Store `v` into `s_state[s_stack]` (the write every error helper and
`parse_*` function performs). -/
def JudoStream.setTopState (s : JudoStream) (v : Nat) : JudoStream :=
  { s with s_state := fun j => if j = s.s_stack then v else s.s_state j }

/-- `struct scanner`: the per-call scanner with its source buffer, the byte
cursor `index` and the stream being mutated. -/
structure Scanner where
  string : Nat → Nat
  string_length : Int
  index : Nat
  stream : JudoStream

/-- `bad_syntax`: record a syntax error in the stream (span, invalid token,
`PARSING_ERROR` state, message) and return `JUDO_RESULT_BAD_SYNTAX`. -/
def bad_syntax (sc : Scanner) (cursor length : Nat) (msg : String) :
    JudoResult × Scanner :=
  let stream := sc.stream
  let stream := { stream with whereSpan := ⟨cursor, length⟩, token := JudoToken.invalid }
  let stream := stream.setTopState SCAN_STATE_PARSING_ERROR
  let stream := { stream with error := msg }
  (JudoResult.badSyntax, { sc with stream := stream })

/-- `bad_encoding`: record a malformed-encoding error (`ENCODING_ERROR`
state) and return `JUDO_RESULT_ILLEGAL_BYTE_SEQUENCE`. -/
def bad_encoding (sc : Scanner) (cursor length : Nat) : JudoResult × Scanner :=
  let stream := sc.stream
  let stream := { stream with whereSpan := ⟨cursor, length⟩, token := JudoToken.invalid }
  let stream := stream.setTopState SCAN_STATE_ENCODING_ERROR
  let stream := { stream with error := "malformed encoded character" }
  (JudoResult.illegalByteSequence, { sc with stream := stream })

/-- `bad_input_size`: record the input-too-large error.  Note that it latches
the stream into the `ENCODING_ERROR` state while returning
`JUDO_RESULT_INPUT_TOO_LARGE`. -/
def bad_input_size (stream : JudoStream) : JudoResult × JudoStream :=
  let stream := { stream with
    whereSpan := ⟨JUDO_MAXIMUM_INPUT_SIZE, 0⟩, token := JudoToken.invalid }
  let stream := stream.setTopState SCAN_STATE_ENCODING_ERROR
  let stream := { stream with error := "maximum input size exceeded" }
  (JudoResult.inputTooLarge, stream)

/-- `bad_input_size` applied through a scanner. -/
def bad_input_size_scanner (sc : Scanner) : JudoResult × Scanner :=
  let p := bad_input_size sc.stream
  (p.1, { sc with stream := p.2 })

/-- `max_nesting_depth`: record the maximum-nesting error
(`MAX_NESTING_ERROR` state) and return `JUDO_RESULT_MAXIMUM_NESTING`. -/
def max_nesting_depth (sc : Scanner) : JudoResult × Scanner :=
  let stream := sc.stream
  let stream := { stream with whereSpan := ⟨sc.index, 1⟩, token := JudoToken.invalid }
  let stream := stream.setTopState SCAN_STATE_MAX_NESTING_ERROR
  let stream := { stream with error := "maximum nesting depth exceeded" }
  (JudoResult.maximumNesting, { sc with stream := stream })

/-! #### Token recognizers -/

/-- The digit-run loop shared by the parts of `scan_number`: consume decimal
digits from `index`, returning the new index, the updated digit count, and the
first non-digit code point. -/
def consume_digits (string : Nat → Nat) (len : Int) :
    Nat → Nat → Nat → Nat × Nat × Nat
  | 0, index, digits => (index, digits, (utf8_decode string len index).1)
  | fuel + 1, index, digits =>
      let cp := (utf8_decode string len index).1
      if judo_isdigit cp then consume_digits string len fuel (index + 1) (digits + 1)
      else (index, digits, cp)

/-- The fractional-part step of `scan_number`: on a `.`, consume the fraction
digits, failing when there are none.  Returns the result, the (possibly
error-recording) scanner, the new index and the next code point. -/
def scan_number_fraction (sc : Scanner) (index codepoint : Nat) :
    JudoResult × Scanner × Nat × Nat :=
  if codepoint = 46 then
    let f := consume_digits sc.string sc.string_length LOOP_FUEL (index + 1) 0
    if f.2.1 = 0 then
      let p := bad_syntax sc sc.index (f.1 - sc.index) "expected fractional part"
      (p.1, p.2, f.1, f.2.2)
    else
      (JudoResult.success, sc, f.1, f.2.2)
  else
    (JudoResult.success, sc, index, codepoint)

/-- The exponent step of `scan_number`: on `e`/`E`, an optional sign and at
least one digit; the digit run is consumed even after the missing-exponent
error, exactly as in the C code. -/
def scan_number_exponent (result : JudoResult) (sc : Scanner)
    (index codepoint : Nat) : JudoResult × Scanner × Nat :=
  if codepoint = 101 ∨ codepoint = 69 then
    let index := index + 1
    let cp := (utf8_decode sc.string sc.string_length index).1
    let index := if cp = 43 ∨ cp = 45 then index + 1 else index
    let cp :=
      if cp = 43 ∨ cp = 45 then (utf8_decode sc.string sc.string_length index).1
      else cp
    if ¬ judo_isdigit cp then
      let p := bad_syntax sc index 1 "missing exponent"
      let e := consume_digits sc.string sc.string_length LOOP_FUEL index 0
      (p.1, p.2, e.1)
    else
      let e := consume_digits sc.string sc.string_length LOOP_FUEL index 0
      (result, sc, e.1)
  else
    (result, sc, index)

/-- `scan_number` (strict/RFC grammar): optional `-` sign, integer part with
the illegal-octal check, optional fraction, optional exponent. -/
def scan_number (sc : Scanner) (token : Token) : JudoResult × Token × Scanner :=
  let index := sc.index
  let index := if sc.string index = 45 then index + 1 else index
  let codepoint := (utf8_decode sc.string sc.string_length index).1
  if ¬ judo_isdigit codepoint then
    let p := bad_syntax sc index 1 "expected number"
    (p.1, token, p.2)
  else
    let first_digit := codepoint
    let d := consume_digits sc.string sc.string_length LOOP_FUEL (index + 1) 1
    if 1 < d.2.1 ∧ first_digit = 48 then
      let p := bad_syntax sc sc.index (d.1 - sc.index) "illegal octal number"
      (p.1, token, p.2)
    else
      let fr := scan_number_fraction sc d.1 d.2.2
      let ex := scan_number_exponent fr.1 fr.2.1 fr.2.2.1 fr.2.2.2
      if ex.1 = JudoResult.success then
        (JudoResult.success,
         { token with type := TokenTag.number, lexeme_length := ex.2.2 - sc.index },
         ex.2.1)
      else
        (ex.1, token, ex.2.1)

/-- The bounded hex-digit collector of the `\uHHHH` escape in `scan_string`:
read up to four hexadecimal digits while bytes remain. -/
def collect_four_hex (string : Nat → Nat) (len : Int) :
    Nat → Nat → List Nat → List Nat × Nat
  | 0, index, acc => (acc, index)
  | n + 1, index, acc =>
      if is_bounded string len index 1 then
        if judo_isxdigit (string index) then
          collect_four_hex string len n (index + 1) (acc ++ [string index])
        else (acc, index)
      else (acc, index)

/-- The unbounded hex-digit collector used for the low half of a surrogate
pair in `scan_string` (the C loop does not bounds-check). -/
def collect_four_hex_unbounded (string : Nat → Nat) :
    Nat → Nat → List Nat → List Nat × Nat
  | 0, index, acc => (acc, index)
  | n + 1, index, acc =>
      if judo_isxdigit (string index) then
        collect_four_hex_unbounded string n (index + 1) (acc ++ [string index])
      else (acc, index)

/-- Outcome of one iteration of the `scan_string` loop body. -/
inductive StrStep where
  | err (r : JudoResult) (sc : Scanner)
  | close (index : Nat)
  | cont (index : Nat)

/-- The candidate code point for the low half of a surrogate pair: when a
second `\uHHHH` escape follows immediately (six bytes in bounds, `\u` next),
its four hex digits; otherwise the high half itself (which fails the
low-surrogate test).  Second component: the index after the digits. -/
def low_surrogate_candidate (sc : Scanner) (escape_end codepoint : Nat) : Nat × Nat :=
  if is_bounded sc.string sc.string_length escape_end 6 ∧
      is_match sc.string escape_end [92, 117] 2 then
    let dh2 := collect_four_hex_unbounded sc.string 4 (escape_end + 2) []
    if dh2.1.length = 4 then (parse_character dh2.1, dh2.2)
    else (codepoint, dh2.2)
  else (codepoint, escape_end)

/-- The low-surrogate check after a high-surrogate `\uHHHH` escape in
`scan_string`: a second `\uHHHH` escape must follow immediately and decode to
a low surrogate; otherwise the `unmatched surrogate pair` error spans the
first escape (`escape_start` to `escape_end`). -/
def scan_string_low_surrogate (sc : Scanner) (escape_start escape_end codepoint : Nat) :
    StrStep :=
  let ci := low_surrogate_candidate sc escape_end codepoint
  if ¬ is_low_surrogate ci.1 then
    let p := bad_syntax sc escape_start (escape_end - escape_start)
      "unmatched surrogate pair"
    StrStep.err p.1 p.2
  else StrStep.cont ci.2

/-- The `\uHHHH` escape of `scan_string`: exactly four hex digits, then the
surrogate-pair rules (a lone low surrogate is rejected). -/
def scan_string_unicode_escape (sc : Scanner) (escape_start index : Nat) : StrStep :=
  let dh := collect_four_hex sc.string sc.string_length 4 index []
  if dh.1.length < 4 then
    let p := bad_syntax sc escape_start (dh.2 - escape_start) "expected four hex digits"
    StrStep.err p.1 p.2
  else
    let codepoint := parse_character dh.1
    if is_high_surrogate codepoint then
      scan_string_low_surrogate sc escape_start dh.2 codepoint
    else if is_low_surrogate codepoint then
      let p := bad_syntax sc escape_start (dh.2 - escape_start) "unmatched surrogate pair"
      StrStep.err p.1 p.2
    else StrStep.cont dh.2

/-- The escape dispatch of `scan_string` (RFC 8259 configuration): `index`
points at the character after the backslash. -/
def scan_string_escape (sc : Scanner) (escape_start index : Nat) : StrStep :=
  let c := sc.string index
  if c = 34 ∨ c = 92 ∨ c = 47 ∨ c = 98 ∨ c = 102 ∨ c = 110 ∨ c = 114 ∨ c = 116 then
    StrStep.cont (index + 1)
  else if c = 117 then
    scan_string_unicode_escape sc escape_start (index + 1)
  else
    let dc := utf8_decode sc.string sc.string_length index
    let p := bad_syntax sc escape_start (index + dc.2 - escape_start)
      "invalid escape sequence"
    StrStep.err p.1 p.2

/-- One iteration of the `scan_string` loop body (RFC 8259 configuration):
control characters, escape sequences (with the surrogate-pair rules), the
closing quote, or a UTF-8 code point. -/
def scan_string_step (sc : Scanner) (quote index : Nat) : StrStep :=
  if sc.string index ≤ 0x1F then
    let p := bad_syntax sc index 1 "unescaped control character"
    StrStep.err p.1 p.2
  else if sc.string index = 92 then
    if is_bounded sc.string sc.string_length (index + 1) 1 then
      scan_string_escape sc index (index + 1)
    else
      StrStep.cont (index + 1)
  else if sc.string index = quote then
    StrStep.close (index + 1)
  else
    let dc := utf8_decode sc.string sc.string_length index
    if dc.1 = BAD_CHARACTER_ENCODING then
      let p := bad_encoding sc index 1
      StrStep.err p.1 p.2
    else if dc.1 = INPUT_TOO_LARGE then
      let p := bad_input_size_scanner sc
      StrStep.err p.1 p.2
    else
      StrStep.cont (index + dc.2)

/-- The `scan_string` loop: iterate `scan_string_step` until the closing
quote, an error, or the end of the input. -/
def scan_string_loop (sc : Scanner) (quote : Nat) :
    Nat → Nat → JudoResult × Option Nat × Scanner
  | 0, _ => (JudoResult.success, none, sc)
  | fuel + 1, index =>
      if is_bounded sc.string sc.string_length index 1 then
        match scan_string_step sc quote index with
        | StrStep.err r sc' => (r, none, sc')
        | StrStep.close index' => (JudoResult.success, some index', sc)
        | StrStep.cont index' => scan_string_loop sc quote fuel index'
      else
        (JudoResult.success, none, sc)

/-- `scan_string` (RFC 8259 configuration): validate a string lexeme from the
opening quote; an unterminated string is the `unclosed string` error. -/
def scan_string (sc : Scanner) (token : Token) : JudoResult × Token × Scanner :=
  let quote := sc.string sc.index
  let lo := scan_string_loop sc quote LOOP_FUEL (sc.index + 1)
  if lo.1 = JudoResult.success then
    match lo.2.1 with
    | some index' =>
        (JudoResult.success,
         { token with type := TokenTag.string, lexeme_length := index' - sc.index },
         lo.2.2)
    | none =>
        let p := bad_syntax lo.2.2 sc.index 1 "unclosed string"
        (p.1, token, p.2)
  else
    (lo.1, token, lo.2.2)

/-- `is_starter` (RFC configuration): ASCII alphabetic. -/
def is_starter (c : Nat) : Bool := judo_isalpha c

/-- `is_continue` (RFC configuration): identifier start or ASCII digit. -/
def is_continue (c : Nat) : Bool := is_starter c || judo_isdigit c

/-- The identifier-run loop of `scan_keyword`. -/
def scan_keyword_loop (string : Nat → Nat) (len : Int) : Nat → Nat → Nat
  | 0, index => index
  | fuel + 1, index =>
      let dc := utf8_decode string len index
      if is_continue dc.1 then scan_keyword_loop string len fuel (index + dc.2)
      else index

/-- `scan_keyword` (RFC 8259 configuration): read an identifier run and match
it against `null`, `true`, `false`; anything else leaves the token invalid. -/
def scan_keyword (sc : Scanner) (token : Token) : Token :=
  let dc := utf8_decode sc.string sc.string_length sc.index
  if is_starter dc.1 then
    let index := scan_keyword_loop sc.string sc.string_length LOOP_FUEL (sc.index + dc.2)
    let token_length := index - sc.index
    if is_match sc.string sc.index [110, 117, 108, 108] token_length then
      { token with type := TokenTag.null, lexeme_length := token_length }
    else if is_match sc.string sc.index [116, 114, 117, 101] token_length then
      { token with type := TokenTag.true, lexeme_length := token_length }
    else if is_match sc.string sc.index [102, 97, 108, 115, 101] token_length then
      { token with type := TokenTag.false, lexeme_length := token_length }
    else
      { token with type := TokenTag.invalid, lexeme_length := 0 }
  else token

/-- `is_space` (RFC configuration): space, tab, line feed, carriage return. -/
def is_space (codepoint : Nat) : Bool :=
  codepoint = 0x20 ∨ codepoint = 0x09 ∨ codepoint = 0x0A ∨ codepoint = 0x0D

/-- The whitespace-skipping loop of `consume_space_and_comments` (comments are
disabled in the RFC 8259 configuration). -/
def consume_space_loop (string : Nat → Nat) (len : Int) : Nat → Nat → Nat
  | 0, index => index
  | fuel + 1, index =>
      let dc := utf8_decode string len index
      let byte_count := if is_space dc.1 then dc.2 else 0
      if byte_count = 0 then index
      else consume_space_loop string len fuel (index + byte_count)

/-- `consume_space_and_comments` (RFC 8259 configuration: whitespace only,
always succeeds). -/
def consume_space_and_comments (sc : Scanner) : JudoResult × Scanner :=
  (JudoResult.success,
   { sc with index := consume_space_loop sc.string sc.string_length LOOP_FUEL sc.index })

/-- `peek`: skip whitespace and recognise one primitive token at the cursor
without consuming it. -/
def peek (sc : Scanner) : JudoResult × Token × Scanner :=
  let sc := (consume_space_and_comments sc).2
  let token : Token := { type := TokenTag.invalid, lexeme := sc.index, lexeme_length := 0 }
  let dc := utf8_decode sc.string sc.string_length sc.index
  let codepoint := dc.1
  let byte_count := dc.2
  if codepoint = BAD_CHARACTER_ENCODING then
    let p := bad_encoding sc sc.index 1
    (p.1, token, p.2)
  else if codepoint = INPUT_TOO_LARGE then
    let p := bad_input_size_scanner sc
    (p.1, token, p.2)
  else if codepoint = 0 then
    if 0 < byte_count then
      let p := bad_syntax sc sc.index 1 "unexpected null byte"
      (p.1, token, p.2)
    else
      (JudoResult.success, { token with type := TokenTag.eof, lexeme_length := 0 }, sc)
  else if codepoint = 45 ∨ (48 ≤ codepoint ∧ codepoint ≤ 57) then
    scan_number sc token
  else if codepoint = 34 then
    scan_string sc token
  else if codepoint = 44 then
    (JudoResult.success, { token with type := TokenTag.comma, lexeme_length := 1 }, sc)
  else if codepoint = 58 then
    (JudoResult.success, { token with type := TokenTag.colon, lexeme_length := 1 }, sc)
  else if codepoint = 91 then
    (JudoResult.success, { token with type := TokenTag.lbrace, lexeme_length := 1 }, sc)
  else if codepoint = 93 then
    (JudoResult.success, { token with type := TokenTag.rbrace, lexeme_length := 1 }, sc)
  else if codepoint = 123 then
    (JudoResult.success, { token with type := TokenTag.lcurlyb, lexeme_length := 1 }, sc)
  else if codepoint = 125 then
    (JudoResult.success, { token with type := TokenTag.rcurlyb, lexeme_length := 1 }, sc)
  else
    let token := scan_keyword sc token
    if token.type = TokenTag.invalid then
      let p := bad_syntax sc sc.index byte_count "unrecognized token"
      (p.1, token, p.2)
    else
      (JudoResult.success, token, sc)

/-- `accept`: peek and consume the token when it has the expected tag. -/
def accept (sc : Scanner) (tag : TokenTag) : JudoResult × Bool × Scanner :=
  let p := peek sc
  if p.2.1.type = tag then
    (p.1, Bool.true, { p.2.2 with index := p.2.2.index + p.2.1.lexeme_length })
  else
    (p.1, Bool.false, p.2.2)

/-- `eat`: consume a peeked token. -/
def eat (sc : Scanner) (token : Token) : Scanner :=
  { sc with index := sc.index + token.lexeme_length }

end Judo

namespace Judo

/-! #### Structural parsing (`parse_*`, `judo_scan`) -/

/-- `parse_null`: emit the `NULL` semantic token and finish the value. -/
def parse_null (sc : Scanner) (token : Token) : JudoResult × Scanner :=
  let sc := eat sc token
  let stream := { sc.stream with
    whereSpan := ⟨token.lexeme, token.lexeme_length⟩, token := JudoToken.null }
  let stream := stream.setTopState SCAN_STATE_FINISHED_PARSING_VALUE
  (JudoResult.success, { sc with stream := stream })

/-- `parse_bool`: emit `TRUE` or `FALSE` and finish the value. -/
def parse_bool (sc : Scanner) (token : Token) : JudoResult × Scanner :=
  let sc := eat sc token
  let stream := { sc.stream with
    whereSpan := ⟨token.lexeme, token.lexeme_length⟩,
    token := if token.type = TokenTag.true then JudoToken.true else JudoToken.false }
  let stream := stream.setTopState SCAN_STATE_FINISHED_PARSING_VALUE
  (JudoResult.success, { sc with stream := stream })

/-- `parse_number`: emit `NUMBER` and finish the value. -/
def parse_number (sc : Scanner) (token : Token) : JudoResult × Scanner :=
  let sc := eat sc token
  let stream := { sc.stream with
    whereSpan := ⟨token.lexeme, token.lexeme_length⟩, token := JudoToken.number }
  let stream := stream.setTopState SCAN_STATE_FINISHED_PARSING_VALUE
  (JudoResult.success, { sc with stream := stream })

/-- `parse_string`: emit `STRING` and finish the value. -/
def parse_string (sc : Scanner) (token : Token) : JudoResult × Scanner :=
  let sc := eat sc token
  let stream := { sc.stream with
    whereSpan := ⟨token.lexeme, token.lexeme_length⟩, token := JudoToken.string }
  let stream := stream.setTopState SCAN_STATE_FINISHED_PARSING_VALUE
  (JudoResult.success, { sc with stream := stream })

/-- `parse_array`: emit `ARRAY_BEGIN` and switch to the array-element state. -/
def parse_array (sc : Scanner) (token : Token) : JudoResult × Scanner :=
  let sc := eat sc token
  let stream := { sc.stream with
    whereSpan := ⟨token.lexeme, token.lexeme_length⟩, token := JudoToken.arrayBegin }
  let stream := stream.setTopState SCAN_STATE_PARSE_ARRAY_END_OR_ARRAY_ELEMENT
  (JudoResult.success, { sc with stream := stream })

/-- `parse_object`: emit `OBJECT_BEGIN` and switch to the object-key state. -/
def parse_object (sc : Scanner) (token : Token) : JudoResult × Scanner :=
  let sc := eat sc token
  let stream := { sc.stream with
    whereSpan := ⟨token.lexeme, token.lexeme_length⟩, token := JudoToken.objectBegin }
  let stream := stream.setTopState SCAN_STATE_PARSE_OBJECT_KEY_OR_OBJECT_END
  (JudoResult.success, { sc with stream := stream })

/-- `parse_value`: the nesting-depth check (`s_stack >= JUDO_MAXDEPTH - 1`
fails with the maximum-nesting error), then a stack push and dispatch on the
next primitive token. -/
def parse_value (maxdepth : Nat) (sc : Scanner) (msg : String) :
    JudoResult × Scanner :=
  if maxdepth - 1 ≤ sc.stream.s_stack then
    max_nesting_depth sc
  else
    let sc := { sc with stream := { sc.stream with s_stack := sc.stream.s_stack + 1 } }
    let p := peek sc
    let token := p.2.1
    let sc := p.2.2
    if p.1 = JudoResult.success then
      if token.type = TokenTag.null then parse_null sc token
      else if token.type = TokenTag.number then parse_number sc token
      else if token.type = TokenTag.string then parse_string sc token
      else if token.type = TokenTag.true then parse_bool sc token
      else if token.type = TokenTag.false then parse_bool sc token
      else if token.type = TokenTag.lbrace then parse_array sc token
      else if token.type = TokenTag.lcurlyb then parse_object sc token
      else bad_syntax sc sc.index 1 msg
    else
      (p.1, sc)

/-- `parse_array_element`: mark the element finished-pending and parse it. -/
def parse_array_element (maxdepth : Nat) (sc : Scanner) : JudoResult × Scanner :=
  let sc := { sc with
    stream := sc.stream.setTopState SCAN_STATE_FINISHED_PARSING_ARRAY_ELEMENT }
  parse_value maxdepth sc "expected value"

/-- `parse_array_element_or_array_end`: `]` closes the array, anything else
must be an element. -/
def parse_array_element_or_array_end (maxdepth : Nat) (sc : Scanner) :
    JudoResult × Scanner :=
  let p := peek sc
  let token := p.2.1
  let sc := p.2.2
  if p.1 = JudoResult.success then
    if token.type = TokenTag.rbrace then
      let sc := eat sc token
      let stream := { sc.stream with
        whereSpan := ⟨token.lexeme, token.lexeme_length⟩, token := JudoToken.arrayEnd }
      let stream := stream.setTopState SCAN_STATE_FINISHED_PARSING_VALUE
      (JudoResult.success, { sc with stream := stream })
    else
      parse_array_element maxdepth sc
  else
    (p.1, sc)

/-- `finished_parsing_array_element` (RFC 8259 configuration: no trailing
commas): `,` requires another element, `]` closes the array. -/
def finished_parsing_array_element (maxdepth : Nat) (sc : Scanner) :
    JudoResult × Scanner :=
  let p := peek sc
  let token := p.2.1
  let sc := p.2.2
  if p.1 = JudoResult.success then
    if token.type = TokenTag.comma then
      let sc := eat sc token
      parse_array_element maxdepth sc
    else if token.type = TokenTag.rbrace then
      let sc := eat sc token
      let stream := { sc.stream with
        whereSpan := ⟨token.lexeme, token.lexeme_length⟩, token := JudoToken.arrayEnd }
      let stream := stream.setTopState SCAN_STATE_FINISHED_PARSING_VALUE
      (JudoResult.success, { sc with stream := stream })
    else
      bad_syntax sc sc.index 1 "expected ']' or ','"
  else
    (p.1, sc)

/-- `parse_object_key` (RFC 8259 configuration: keys are strings only). -/
def parse_object_key (sc : Scanner) (token : Token) : JudoResult × Scanner :=
  if token.type = TokenTag.string then
    let sc := eat sc token
    let stream := { sc.stream with
      whereSpan := ⟨token.lexeme, token.lexeme_length⟩, token := JudoToken.objectName }
    let stream := stream.setTopState SCAN_STATE_PARSE_OBJECT_VALUE
    (JudoResult.success, { sc with stream := stream })
  else
    bad_syntax sc sc.index 1 "expected '\x7d' or string"

/-- `parse_object_value`: require `:` and parse the member value. -/
def parse_object_value (maxdepth : Nat) (sc : Scanner) : JudoResult × Scanner :=
  let p := accept sc TokenTag.colon
  let accepted := p.2.1
  let sc := p.2.2
  if p.1 = JudoResult.success then
    if accepted then
      let sc := { sc with
        stream := sc.stream.setTopState SCAN_STATE_FINISHED_PARSING_OBJECT_VALUE }
      parse_value maxdepth sc "expected value after ':'"
    else
      bad_syntax sc sc.index 1 "expected ':'"
  else
    (p.1, sc)

/-- `parse_object_key_or_object_end`: `}` closes the object, anything else
must be a key. -/
def parse_object_key_or_object_end (sc : Scanner) : JudoResult × Scanner :=
  let p := peek sc
  let token := p.2.1
  let sc := p.2.2
  if p.1 = JudoResult.success then
    if token.type = TokenTag.rcurlyb then
      let sc := eat sc token
      let stream := { sc.stream with
        whereSpan := ⟨token.lexeme, token.lexeme_length⟩, token := JudoToken.objectEnd }
      let stream := stream.setTopState SCAN_STATE_FINISHED_PARSING_VALUE
      (JudoResult.success, { sc with stream := stream })
    else
      parse_object_key sc token
  else
    (p.1, sc)

/-- `finished_parsing_object_value` (RFC 8259 configuration: no trailing
commas): `,` requires another key, `}` closes the object. -/
def finished_parsing_object_value (sc : Scanner) : JudoResult × Scanner :=
  let p := peek sc
  let token := p.2.1
  let sc := p.2.2
  if p.1 = JudoResult.success then
    if token.type = TokenTag.comma then
      let sc := eat sc token
      let q := peek sc
      let token2 := q.2.1
      let sc := q.2.2
      if q.1 = JudoResult.success then
        parse_object_key sc token2
      else
        (q.1, sc)
    else if token.type = TokenTag.rcurlyb then
      let sc := eat sc token
      let stream := { sc.stream with
        whereSpan := ⟨token.lexeme, token.lexeme_length⟩, token := JudoToken.objectEnd }
      let stream := stream.setTopState SCAN_STATE_FINISHED_PARSING_VALUE
      (JudoResult.success, { sc with stream := stream })
    else
      bad_syntax sc sc.index 1 "expected '\x7d' or ','"
  else
    (p.1, sc)

/-- `parse_root`: skip a UTF-8 BOM once, then parse the root value.  In the
RFC 8259 configuration every JSON value may appear at the root. -/
def parse_root (sc : Scanner) : JudoResult × Scanner :=
  let sc :=
    if is_bounded sc.string sc.string_length sc.index 3 ∧
        sc.string 0 = 0xEF ∧ sc.string 1 = 0xBB ∧ sc.string 2 = 0xBF then
      { sc with index := sc.index + 3 }
    else sc
  let p := peek sc
  let token := p.2.1
  let sc := p.2.2
  if p.1 = JudoResult.success then
    if token.type = TokenTag.lbrace then parse_array sc token
    else if token.type = TokenTag.lcurlyb then parse_object sc token
    else if token.type = TokenTag.null then parse_null sc token
    else if token.type = TokenTag.number then parse_number sc token
    else if token.type = TokenTag.string then parse_string sc token
    else if token.type = TokenTag.false ∨ token.type = TokenTag.true then parse_bool sc token
    else bad_syntax sc 0 0 "expected root value"
  else
    (p.1, sc)

/-- The entry logic of `judo_scan`: when the top state is
`FINISHED_PARSING_VALUE`, either look for EOF (at the root) or pop one stack
frame. -/
def judo_scan_entry (sc : Scanner) : JudoResult × Scanner :=
  if sc.stream.s_state sc.stream.s_stack = SCAN_STATE_FINISHED_PARSING_VALUE then
    if sc.stream.s_stack = 0 then
      let p := peek sc
      let token := p.2.1
      let sc := p.2.2
      if p.1 = JudoResult.success then
        if token.type = TokenTag.eof then
          let stream := { sc.stream with
            token := JudoToken.eof,
            whereSpan := ⟨token.lexeme, token.lexeme_length⟩ }
          let stream := stream.setTopState SCAN_STATE_FINISHED_PARSING
          (JudoResult.success, { sc with stream := stream })
        else
          bad_syntax sc sc.index 1 "expected EOF"
      else
        (p.1, sc)
    else
      (JudoResult.success,
       { sc with stream := { sc.stream with s_stack := sc.stream.s_stack - 1 } })
  else
    (JudoResult.success, sc)

/-- The dispatch switch of `judo_scan` on the (post-entry) top state. -/
def judo_scan_dispatch (maxdepth : Nat) (sc : Scanner) : JudoResult × Scanner :=
  let st := sc.stream.s_state sc.stream.s_stack
  if st = SCAN_STATE_ROOT_VALUE then parse_root sc
  else if st = SCAN_STATE_FINISHED_PARSING_ARRAY_ELEMENT then
    finished_parsing_array_element maxdepth sc
  else if st = SCAN_STATE_PARSE_ARRAY_END_OR_ARRAY_ELEMENT then
    parse_array_element_or_array_end maxdepth sc
  else if st = SCAN_STATE_PARSE_OBJECT_KEY_OR_OBJECT_END then
    parse_object_key_or_object_end sc
  else if st = SCAN_STATE_PARSE_OBJECT_VALUE then
    parse_object_value maxdepth sc
  else if st = SCAN_STATE_FINISHED_PARSING_OBJECT_VALUE then
    finished_parsing_object_value sc
  else if st = SCAN_STATE_PARSING_ERROR then (JudoResult.badSyntax, sc)
  else if st = SCAN_STATE_ENCODING_ERROR then (JudoResult.illegalByteSequence, sc)
  else if st = SCAN_STATE_MAX_NESTING_ERROR then (JudoResult.maximumNesting, sc)
  else if st = SCAN_STATE_FINISHED_PARSING then (JudoResult.success, sc)
  else (JudoResult.malfunction, sc)

/-- `judo_scan` (RFC 8259 configuration): advance the stream by one semantic
token.  `maxdepth` is the build-time `JUDO_MAXDEPTH` bound. -/
def judo_scan (maxdepth : Nat) (stream : JudoStream) (source : Nat → Nat)
    (length : Int) : JudoResult × JudoStream :=
  if (JUDO_MAXIMUM_INPUT_SIZE : Int) ≤ length then
    bad_input_size stream
  else
    let sc : Scanner :=
      { string := source, string_length := length, index := stream.s_at, stream := stream }
    let entry := judo_scan_entry sc
    if entry.1 = JudoResult.success then
      let d := judo_scan_dispatch maxdepth entry.2
      (d.1, { d.2.stream with s_at := d.2.index })
    else
      (entry.1, entry.2.stream)

/-- Iterate `judo_scan`, collecting the result, semantic token and span of
each call. -/
def scanTrace (maxdepth : Nat) (source : Nat → Nat) (length : Int) :
    Nat → JudoStream → List (JudoResult × JudoToken × JudoSpan)
  | 0, _ => []
  | n + 1, s =>
      let p := judo_scan maxdepth s source length
      (p.1, p.2.token, p.2.whereSpan) :: scanTrace maxdepth source length n p.2

end Judo

namespace Judo

/-! ### Maxdepth monotonicity: the nesting bound only matters through the
`parse_value` guard, so raising `JUDO_MAXDEPTH` cannot change a scan that
does not report maximum nesting. -/

theorem parse_value_mono (md md' : Nat) (h : md ≤ md') (sc : Scanner)
    (msg : String) :
    parse_value md sc msg = parse_value md' sc msg ∨
    (parse_value md sc msg).1 = JudoResult.maximumNesting := by
  by_cases hg : md - 1 ≤ sc.stream.s_stack
  · right
    unfold parse_value
    rw [if_pos hg]
    rfl
  · left
    have hg' : ¬ md' - 1 ≤ sc.stream.s_stack := by omega
    unfold parse_value
    rw [if_neg hg, if_neg hg']

theorem parse_array_element_mono (md md' : Nat) (h : md ≤ md') (sc : Scanner) :
    parse_array_element md sc = parse_array_element md' sc ∨
    (parse_array_element md sc).1 = JudoResult.maximumNesting := by
  unfold parse_array_element
  exact parse_value_mono md md' h _ _

theorem parse_array_element_or_array_end_mono (md md' : Nat) (h : md ≤ md')
    (sc : Scanner) :
    parse_array_element_or_array_end md sc = parse_array_element_or_array_end md' sc ∨
    (parse_array_element_or_array_end md sc).1 = JudoResult.maximumNesting := by
  unfold parse_array_element_or_array_end
  dsimp only
  split
  · split
    · left; rfl
    · exact parse_array_element_mono md md' h _
  · left; rfl

theorem finished_parsing_array_element_mono (md md' : Nat) (h : md ≤ md')
    (sc : Scanner) :
    finished_parsing_array_element md sc = finished_parsing_array_element md' sc ∨
    (finished_parsing_array_element md sc).1 = JudoResult.maximumNesting := by
  unfold finished_parsing_array_element
  dsimp only
  split
  · split
    · exact parse_array_element_mono md md' h _
    · split
      · left; rfl
      · left; rfl
  · left; rfl

theorem parse_object_value_mono (md md' : Nat) (h : md ≤ md') (sc : Scanner) :
    parse_object_value md sc = parse_object_value md' sc ∨
    (parse_object_value md sc).1 = JudoResult.maximumNesting := by
  unfold parse_object_value
  dsimp only
  split
  · split
    · exact parse_value_mono md md' h _ _
    · left; rfl
  · left; rfl

theorem mono_lift (f g : JudoResult × Scanner)
    (h : f = g ∨ f.1 = JudoResult.maximumNesting) :
    (f.1, { f.2.stream with s_at := f.2.index }) =
      (g.1, { g.2.stream with s_at := g.2.index }) ∨
    ((f.1, ({ f.2.stream with s_at := f.2.index } : JudoStream)) :
        JudoResult × JudoStream).1 = JudoResult.maximumNesting := by
  rcases h with he | hm
  · left; rw [he]
  · right; exact hm

set_option maxHeartbeats 1000000 in
theorem judo_scan_dispatch_mono (md md' : Nat) (h : md ≤ md') (sc : Scanner) :
    judo_scan_dispatch md sc = judo_scan_dispatch md' sc ∨
    (judo_scan_dispatch md sc).1 = JudoResult.maximumNesting := by
  unfold judo_scan_dispatch
  dsimp only
  split
  · left; rfl
  · split
    · exact finished_parsing_array_element_mono md md' h _
    · split
      · exact parse_array_element_or_array_end_mono md md' h _
      · split
        · left; rfl
        · split
          · exact parse_object_value_mono md md' h _
          · left; rfl

set_option maxHeartbeats 1000000 in
theorem judo_scan_mono (md md' : Nat) (h : md ≤ md') (s : JudoStream)
    (source : Nat → Nat) (length : Int) :
    judo_scan md s source length = judo_scan md' s source length ∨
    (judo_scan md s source length).1 = JudoResult.maximumNesting := by
  unfold judo_scan
  dsimp only
  split
  · left; rfl
  · split
    · exact mono_lift _ _ (judo_scan_dispatch_mono md md' h _)
    · left; rfl

theorem scanTrace_mono (md md' : Nat) (h : md ≤ md') (source : Nat → Nat)
    (length : Int) :
    ∀ (n : Nat) (s : JudoStream),
      (scanTrace md source length n s).Forall
        (fun t => t.1 ≠ JudoResult.maximumNesting) →
      scanTrace md' source length n s = scanTrace md source length n s := by
  intro n
  induction n with
  | zero => intro s _; rfl
  | succ n ih =>
    intro s hF
    rw [scanTrace] at hF
    rw [List.forall_cons] at hF
    obtain ⟨hhead, htail⟩ := hF
    rcases judo_scan_mono md md' h s source length with he | hm
    · rw [scanTrace, scanTrace, ← he]
      rw [ih _ htail]
    · exact absurd hm hhead

end Judo

namespace Judo

/-! ### Claim C1: the RFC 8259 end-to-end token trace -/

/-- The 23-byte input `"a":1,"b":[true,null]` wrapped in braces. -/
def exampleSource : Nat → Nat := fun i =>
  [123, 34, 97, 34, 58, 49, 44, 34, 98, 34, 58, 91, 116, 114, 117, 101, 44,
   110, 117, 108, 108, 93, 125].getD i 0

/-- C1: in RFC 8259 mode (for any nesting bound at least 3, which this input
needs), scanning the 23-byte input with a zero-initialised stream yields
exactly the claimed sequence of (token, span) results, every call returning
success: OBJECT_BEGIN(0,1), OBJECT_NAME(1,3), NUMBER(5,1), OBJECT_NAME(7,3),
ARRAY_BEGIN(11,1), TRUE(12,4), NULL(17,4), ARRAY_END(21,1), OBJECT_END(22,1),
EOF(23,0). -/
theorem judo_scan_rfc8259_example (md : Nat) (h : 3 ≤ md) :
    scanTrace md exampleSource 23 10 zeroStream =
      [(JudoResult.success, JudoToken.objectBegin, ⟨0, 1⟩),
       (JudoResult.success, JudoToken.objectName, ⟨1, 3⟩),
       (JudoResult.success, JudoToken.number, ⟨5, 1⟩),
       (JudoResult.success, JudoToken.objectName, ⟨7, 3⟩),
       (JudoResult.success, JudoToken.arrayBegin, ⟨11, 1⟩),
       (JudoResult.success, JudoToken.true, ⟨12, 4⟩),
       (JudoResult.success, JudoToken.null, ⟨17, 4⟩),
       (JudoResult.success, JudoToken.arrayEnd, ⟨21, 1⟩),
       (JudoResult.success, JudoToken.objectEnd, ⟨22, 1⟩),
       (JudoResult.success, JudoToken.eof, ⟨23, 0⟩)] := by
  rw [scanTrace_mono 3 md h exampleSource 23 10 zeroStream (by decide)]
  decide

theorem judo_scan_rfc8259_example_witness :
    3 ≤ 3 ∧
    scanTrace 3 exampleSource 23 10 zeroStream =
      [(JudoResult.success, JudoToken.objectBegin, ⟨0, 1⟩),
       (JudoResult.success, JudoToken.objectName, ⟨1, 3⟩),
       (JudoResult.success, JudoToken.number, ⟨5, 1⟩),
       (JudoResult.success, JudoToken.objectName, ⟨7, 3⟩),
       (JudoResult.success, JudoToken.arrayBegin, ⟨11, 1⟩),
       (JudoResult.success, JudoToken.true, ⟨12, 4⟩),
       (JudoResult.success, JudoToken.null, ⟨17, 4⟩),
       (JudoResult.success, JudoToken.arrayEnd, ⟨21, 1⟩),
       (JudoResult.success, JudoToken.objectEnd, ⟨22, 1⟩),
       (JudoResult.success, JudoToken.eof, ⟨23, 0⟩)] :=
  ⟨Nat.le_refl 3, judo_scan_rfc8259_example 3 (Nat.le_refl 3)⟩

end Judo

namespace Judo

/-! ### Result/state correspondence for the token-recognizer layer.

`ScanOut sc p` records what every `peek`-level function guarantees: the stack
depth is untouched, a success leaves the stream untouched, every error result
is latched into the matching terminal state, and only the four listed results
can occur. -/

def ScanOut (sc : Scanner) (p : JudoResult × Scanner) : Prop :=
  p.2.stream.s_stack = sc.stream.s_stack ∧
  (p.1 = JudoResult.success → p.2.stream = sc.stream) ∧
  (p.1 = JudoResult.badSyntax →
    p.2.stream.s_state p.2.stream.s_stack = SCAN_STATE_PARSING_ERROR) ∧
  (p.1 = JudoResult.illegalByteSequence →
    p.2.stream.s_state p.2.stream.s_stack = SCAN_STATE_ENCODING_ERROR) ∧
  (p.1 = JudoResult.inputTooLarge →
    p.2.stream.s_state p.2.stream.s_stack = SCAN_STATE_ENCODING_ERROR) ∧
  (p.1 = JudoResult.success ∨ p.1 = JudoResult.badSyntax ∨
   p.1 = JudoResult.illegalByteSequence ∨ p.1 = JudoResult.inputTooLarge)

theorem setTopState_s_stack (s : JudoStream) (v : Nat) :
    (s.setTopState v).s_stack = s.s_stack := rfl

theorem setTopState_top (s : JudoStream) (v : Nat) :
    (s.setTopState v).s_state (s.setTopState v).s_stack = v := by
  unfold JudoStream.setTopState
  simp

theorem bad_syntax_result (sc : Scanner) (c l : Nat) (m : String) :
    ( bad_syntax sc c l m).1 = JudoResult.badSyntax := rfl

theorem bad_syntax_s_stack (sc : Scanner) (c l : Nat) (m : String) :
    ( bad_syntax sc c l m).2.stream.s_stack = sc.stream.s_stack := rfl

theorem bad_syntax_top (sc : Scanner) (c l : Nat) (m : String) :
    ( bad_syntax sc c l m).2.stream.s_state
      ( bad_syntax sc c l m).2.stream.s_stack = SCAN_STATE_PARSING_ERROR := by
  unfold bad_syntax JudoStream.setTopState
  simp

theorem bad_encoding_result (sc : Scanner) (c l : Nat) :
    (bad_encoding sc c l).1 = JudoResult.illegalByteSequence := rfl

theorem bad_encoding_s_stack (sc : Scanner) (c l : Nat) :
    (bad_encoding sc c l).2.stream.s_stack = sc.stream.s_stack := rfl

theorem bad_encoding_top (sc : Scanner) (c l : Nat) :
    (bad_encoding sc c l).2.stream.s_state
      (bad_encoding sc c l).2.stream.s_stack = SCAN_STATE_ENCODING_ERROR := by
  unfold bad_encoding JudoStream.setTopState
  simp

theorem bad_input_size_result (s : JudoStream) :
    (bad_input_size s).1 = JudoResult.inputTooLarge := rfl

theorem bad_input_size_s_stack (s : JudoStream) :
    (bad_input_size s).2.s_stack = s.s_stack := rfl

theorem bad_input_size_top (s : JudoStream) :
    (bad_input_size s).2.s_state (bad_input_size s).2.s_stack =
      SCAN_STATE_ENCODING_ERROR := by
  unfold bad_input_size JudoStream.setTopState
  simp

theorem scanOut_success (sc sc' : Scanner) (h : sc'.stream = sc.stream) :
    ScanOut sc (JudoResult.success, sc') := by
  refine ⟨by rw [h], fun _ => h, ?_, ?_, ?_, Or.inl rfl⟩ <;> (intro hc; simp at hc)

theorem scanOut_bad_syntax (sc sc₂ : Scanner)
    (h : sc₂.stream.s_stack = sc.stream.s_stack) (c l : Nat) (m : String) :
    ScanOut sc ( bad_syntax sc₂ c l m) := by
  refine ⟨( bad_syntax_s_stack sc₂ c l m).trans h, ?_, fun _ => bad_syntax_top sc₂ c l m,
    ?_, ?_, Or.inr (Or.inl ( bad_syntax_result sc₂ c l m))⟩ <;>
    (intro hc; rw [bad_syntax_result] at hc; exact absurd hc (by decide))

theorem scanOut_bad_encoding (sc sc₂ : Scanner)
    (h : sc₂.stream.s_stack = sc.stream.s_stack) (c l : Nat) :
    ScanOut sc (bad_encoding sc₂ c l) := by
  refine ⟨(bad_encoding_s_stack sc₂ c l).trans h, ?_, ?_,
    fun _ => bad_encoding_top sc₂ c l, ?_,
    Or.inr (Or.inr (Or.inl (bad_encoding_result sc₂ c l)))⟩ <;>
    (intro hc; rw [bad_encoding_result] at hc; exact absurd hc (by decide))

theorem scanOut_bad_input_size (sc sc₂ : Scanner)
    (h : sc₂.stream.s_stack = sc.stream.s_stack) :
    ScanOut sc (bad_input_size_scanner sc₂) := by
  have h1 : (bad_input_size_scanner sc₂).1 = JudoResult.inputTooLarge :=
    bad_input_size_result sc₂.stream
  have h2 : (bad_input_size_scanner sc₂).2.stream = (bad_input_size sc₂.stream).2 := rfl
  refine ⟨?_, ?_, ?_, ?_, ?_, Or.inr (Or.inr (Or.inr h1))⟩
  · rw [h2, bad_input_size_s_stack, h]
  · intro hc; rw [h1] at hc; exact absurd hc (by decide)
  · intro hc; rw [h1] at hc; exact absurd hc (by decide)
  · intro hc; rw [h1] at hc; exact absurd hc (by decide)
  · intro _
    rw [h2]
    exact bad_input_size_top sc₂.stream

theorem scanOut_congr (sc₁ sc₂ : Scanner) (p : JudoResult × Scanner)
    (h : sc₁.stream = sc₂.stream) : ScanOut sc₁ p → ScanOut sc₂ p := by
  intro ⟨h1, h2, h3, h4, h5, h6⟩
  exact ⟨by rw [h1, h], fun hs => (h2 hs).trans h, h3, h4, h5, h6⟩

theorem scanOut_scan_number_fraction (sc : Scanner) (index codepoint : Nat) :
    ScanOut sc ((scan_number_fraction sc index codepoint).1,
      (scan_number_fraction sc index codepoint).2.1) := by
  unfold scan_number_fraction
  dsimp only
  split
  · split
    · exact scanOut_bad_syntax sc sc rfl _ _ _
    · exact scanOut_success sc sc rfl
  · exact scanOut_success sc sc rfl

theorem scanOut_scan_number_exponent (result : JudoResult) (sc₀ sc : Scanner)
    (index codepoint : Nat) (h : ScanOut sc₀ (result, sc)) :
    ScanOut sc₀ ((scan_number_exponent result sc index codepoint).1,
      (scan_number_exponent result sc index codepoint).2.1) := by
  unfold scan_number_exponent
  dsimp only
  split
  · split <;>
      (split
       · exact scanOut_bad_syntax sc₀ sc h.1 _ _ _
       · exact h)
  · exact h

theorem scanOut_scan_number (sc : Scanner) (token : Token) :
    ScanOut sc ((scan_number sc token).1, (scan_number sc token).2.2) := by
  unfold scan_number
  dsimp only
  split <;>
    (split
     · exact scanOut_bad_syntax sc sc rfl _ _ _
     · split
       · exact scanOut_bad_syntax sc sc rfl _ _ _
       · split
         · next hsucc =>
             dsimp only
             rw [← hsucc]
             exact scanOut_scan_number_exponent _ _ _ _ _
               (scanOut_scan_number_fraction sc _ _)
         · dsimp only
           exact scanOut_scan_number_exponent _ _ _ _ _
             (scanOut_scan_number_fraction sc _ _))

end Judo

namespace Judo

theorem scanOut_scan_string_low_surrogate (sc : Scanner) (a b cp : Nat)
    (r : JudoResult) (sc' : Scanner)
    (h : scan_string_low_surrogate sc a b cp = StrStep.err r sc') :
    ScanOut sc (r, sc') := by
  unfold scan_string_low_surrogate at h
  dsimp only at h
  repeat'
    first
      | exact StrStep.noConfusion h
      | (injection h with h1 h2
         subst h1
         subst h2
         exact scanOut_bad_syntax sc sc rfl _ _ _)
      | split at h

theorem scanOut_scan_string_unicode_escape (sc : Scanner) (a b : Nat)
    (r : JudoResult) (sc' : Scanner)
    (h : scan_string_unicode_escape sc a b = StrStep.err r sc') :
    ScanOut sc (r, sc') := by
  unfold scan_string_unicode_escape at h
  dsimp only at h
  repeat'
    first
      | exact StrStep.noConfusion h
      | exact scanOut_scan_string_low_surrogate sc _ _ _ r sc' h
      | (injection h with h1 h2
         subst h1
         subst h2
         exact scanOut_bad_syntax sc sc rfl _ _ _)
      | split at h

theorem scanOut_scan_string_escape (sc : Scanner) (a b : Nat)
    (r : JudoResult) (sc' : Scanner)
    (h : scan_string_escape sc a b = StrStep.err r sc') :
    ScanOut sc (r, sc') := by
  unfold scan_string_escape at h
  dsimp only at h
  repeat'
    first
      | exact StrStep.noConfusion h
      | exact scanOut_scan_string_unicode_escape sc _ _ r sc' h
      | (injection h with h1 h2
         subst h1
         subst h2
         exact scanOut_bad_syntax sc sc rfl _ _ _)
      | split at h

theorem scanOut_scan_string_step (sc : Scanner) (q i : Nat) (r : JudoResult)
    (sc' : Scanner) (h : scan_string_step sc q i = StrStep.err r sc') :
    ScanOut sc (r, sc') := by
  unfold scan_string_step at h
  dsimp only at h
  repeat'
    first
      | exact StrStep.noConfusion h
      | exact scanOut_scan_string_escape sc _ _ r sc' h
      | (injection h with h1 h2
         subst h1
         subst h2
         first
           | exact scanOut_bad_syntax sc sc rfl _ _ _
           | exact scanOut_bad_encoding sc sc rfl _ _
           | exact scanOut_bad_input_size sc sc rfl)
      | split at h

theorem scanOut_scan_string_loop (sc : Scanner) (q : Nat) :
    ∀ (fuel i : Nat), ScanOut sc ((scan_string_loop sc q fuel i).1,
      (scan_string_loop sc q fuel i).2.2) := by
  intro fuel
  induction fuel with
  | zero =>
    intro i
    exact scanOut_success sc sc rfl
  | succ fuel ih =>
    intro i
    rw [scan_string_loop]
    split
    · cases hstep : scan_string_step sc q i with
      | err r sc' => exact scanOut_scan_string_step sc q i r sc' hstep
      | close i' => exact scanOut_success sc sc rfl
      | cont i' => exact ih i'
    · exact scanOut_success sc sc rfl

theorem scanOut_scan_string (sc : Scanner) (t : Token) :
    ScanOut sc ((scan_string sc t).1, (scan_string sc t).2.2) := by
  unfold scan_string
  dsimp only
  have hlo := scanOut_scan_string_loop sc (sc.string sc.index) LOOP_FUEL (sc.index + 1)
  split
  · next hsucc =>
      split
      · exact scanOut_success sc _ (hlo.2.1 hsucc)
      · exact scanOut_bad_syntax sc _ hlo.1 _ _ _
  · exact hlo

theorem consume_space_stream (sc : Scanner) :
    (consume_space_and_comments sc).2.stream = sc.stream := rfl

set_option maxHeartbeats 2000000 in
theorem scanOut_peek (sc : Scanner) : ScanOut sc ((peek sc).1, (peek sc).2.2) := by
  unfold peek
  dsimp only
  have hstream : (consume_space_and_comments sc).2.stream = sc.stream := rfl
  generalize hsc1 : (consume_space_and_comments sc).2 = sc₁
  rw [hsc1] at hstream
  generalize utf8_decode sc₁.string sc₁.string_length sc₁.index = dc
  have hstack : sc₁.stream.s_stack = sc.stream.s_stack := by rw [hstream]
  by_cases h1 : dc.1 = BAD_CHARACTER_ENCODING
  · rw [if_pos h1]
    exact scanOut_bad_encoding sc _ hstack _ _
  · rw [if_neg h1]
    by_cases h2 : dc.1 = INPUT_TOO_LARGE
    · rw [if_pos h2]
      exact scanOut_bad_input_size sc _ hstack
    · rw [if_neg h2]
      by_cases h3 : dc.1 = 0
      · rw [if_pos h3]
        by_cases h3a : 0 < dc.2
        · rw [if_pos h3a]
          exact scanOut_bad_syntax sc _ hstack _ _ _
        · rw [if_neg h3a]
          exact scanOut_success sc _ hstream
      · rw [if_neg h3]
        by_cases h4 : dc.1 = 45 ∨ (48 ≤ dc.1 ∧ dc.1 ≤ 57)
        · rw [if_pos h4]
          exact scanOut_congr _ sc _ hstream (scanOut_scan_number _ _)
        · rw [if_neg h4]
          by_cases h5 : dc.1 = 34
          · rw [if_pos h5]
            exact scanOut_congr _ sc _ hstream (scanOut_scan_string _ _)
          · rw [if_neg h5]
            by_cases h6 : dc.1 = 44
            · rw [if_pos h6]
              exact scanOut_success sc _ hstream
            · rw [if_neg h6]
              by_cases h7 : dc.1 = 58
              · rw [if_pos h7]
                exact scanOut_success sc _ hstream
              · rw [if_neg h7]
                by_cases h8 : dc.1 = 91
                · rw [if_pos h8]
                  exact scanOut_success sc _ hstream
                · rw [if_neg h8]
                  by_cases h9 : dc.1 = 93
                  · rw [if_pos h9]
                    exact scanOut_success sc _ hstream
                  · rw [if_neg h9]
                    by_cases h10 : dc.1 = 123
                    · rw [if_pos h10]
                      exact scanOut_success sc _ hstream
                    · rw [if_neg h10]
                      by_cases h11 : dc.1 = 125
                      · rw [if_pos h11]
                        exact scanOut_success sc _ hstream
                      · rw [if_neg h11]
                        by_cases h12 : (scan_keyword sc₁
                            { type := TokenTag.invalid, lexeme := sc₁.index,
                              lexeme_length := 0 }).type = TokenTag.invalid
                        · rw [if_pos h12]
                          exact scanOut_bad_syntax sc _ hstack _ _ _
                        · rw [if_neg h12]
                          exact scanOut_success sc _ hstream

theorem scanOut_accept (sc : Scanner) (tag : TokenTag) :
    ScanOut sc ((accept sc tag).1, (accept sc tag).2.2) := by
  unfold accept
  dsimp only
  split
  · exact scanOut_peek sc
  · exact scanOut_peek sc

end Judo

namespace Judo

/-! ### Result/state correspondence for the structural layer.

`ParseOut maxdepth sc p` is what every dispatch-level function guarantees:
the stack-depth bound is preserved and every error result is latched into the
matching terminal state at the top of the stack. -/

def ParseOut (maxdepth : Nat) (sc : Scanner) (p : JudoResult × Scanner) : Prop :=
  (sc.stream.s_stack < maxdepth → p.2.stream.s_stack < maxdepth) ∧
  (p.1 = JudoResult.badSyntax →
    p.2.stream.s_state p.2.stream.s_stack = SCAN_STATE_PARSING_ERROR) ∧
  (p.1 = JudoResult.illegalByteSequence →
    p.2.stream.s_state p.2.stream.s_stack = SCAN_STATE_ENCODING_ERROR) ∧
  (p.1 = JudoResult.inputTooLarge →
    p.2.stream.s_state p.2.stream.s_stack = SCAN_STATE_ENCODING_ERROR) ∧
  (p.1 = JudoResult.maximumNesting →
    p.2.stream.s_state p.2.stream.s_stack = SCAN_STATE_MAX_NESTING_ERROR)

theorem parseOut_of_scanOut (maxdepth : Nat) (sc : Scanner)
    (p : JudoResult × Scanner) (h : ScanOut sc p) : ParseOut maxdepth sc p := by
  obtain ⟨h1, _, h3, h4, h5, h6⟩ := h
  refine ⟨fun hb => by rw [h1]; exact hb, h3, h4, h5, fun hm => ?_⟩
  rcases h6 with hc | hc | hc | hc <;> (rw [hm] at hc; exact absurd hc (by decide))

theorem parseOut_congr (maxdepth : Nat) (sc₁ sc₂ : Scanner)
    (p : JudoResult × Scanner) (h : sc₁.stream.s_stack = sc₂.stream.s_stack) :
    ParseOut maxdepth sc₁ p → ParseOut maxdepth sc₂ p := by
  intro ⟨h1, h2, h3, h4, h5⟩
  exact ⟨fun hb => h1 (by rw [h]; exact hb), h2, h3, h4, h5⟩

theorem max_nesting_depth_result (sc : Scanner) :
    (max_nesting_depth sc).1 = JudoResult.maximumNesting := rfl

theorem max_nesting_depth_s_stack (sc : Scanner) :
    (max_nesting_depth sc).2.stream.s_stack = sc.stream.s_stack := rfl

theorem max_nesting_depth_top (sc : Scanner) :
    (max_nesting_depth sc).2.stream.s_state
      (max_nesting_depth sc).2.stream.s_stack = SCAN_STATE_MAX_NESTING_ERROR := by
  unfold max_nesting_depth JudoStream.setTopState
  simp

theorem parseOut_max_nesting (maxdepth : Nat) (sc : Scanner) :
    ParseOut maxdepth sc (max_nesting_depth sc) := by
  refine ⟨?_, ?_, ?_, ?_, fun _ => max_nesting_depth_top sc⟩
  · rw [max_nesting_depth_s_stack]; exact id
  all_goals (intro hc; rw [max_nesting_depth_result] at hc; exact absurd hc (by decide))

/-- The `parse_*` emitters succeed and only move the cursor and rewrite
stream fields other than `s_stack`. -/
theorem parseOut_emit (maxdepth : Nat) (sc sc' : Scanner) (r : JudoResult)
    (hr : r = JudoResult.success)
    (hs : sc'.stream.s_stack = sc.stream.s_stack) :
    ParseOut maxdepth sc (r, sc') := by
  subst hr
  refine ⟨fun hb => by rw [hs]; exact hb, ?_, ?_, ?_, ?_⟩
  all_goals (intro hc; simp at hc)

theorem parse_null_s_stack (sc : Scanner) (t : Token) :
    (parse_null sc t).2.stream.s_stack = sc.stream.s_stack := rfl

theorem parse_bool_s_stack (sc : Scanner) (t : Token) :
    (parse_bool sc t).2.stream.s_stack = sc.stream.s_stack := rfl

theorem parse_number_s_stack (sc : Scanner) (t : Token) :
    (parse_number sc t).2.stream.s_stack = sc.stream.s_stack := rfl

theorem parse_string_s_stack (sc : Scanner) (t : Token) :
    (parse_string sc t).2.stream.s_stack = sc.stream.s_stack := rfl

theorem parse_array_s_stack (sc : Scanner) (t : Token) :
    (parse_array sc t).2.stream.s_stack = sc.stream.s_stack := rfl

theorem parse_object_s_stack (sc : Scanner) (t : Token) :
    (parse_object sc t).2.stream.s_stack = sc.stream.s_stack := rfl

set_option maxHeartbeats 1000000 in
theorem parseOut_parse_value (maxdepth : Nat) (sc : Scanner) (msg : String) :
    ParseOut maxdepth sc (parse_value maxdepth sc msg) := by
  unfold parse_value
  dsimp only
  split
  · exact parseOut_max_nesting maxdepth sc
  · next hguard =>
      set sc₁ : Scanner :=
        { sc with stream := { sc.stream with s_stack := sc.stream.s_stack + 1 } }
        with hsc₁
      have hstack1 : sc₁.stream.s_stack = sc.stream.s_stack + 1 := rfl
      have hlt : sc₁.stream.s_stack < maxdepth := by
        rw [hstack1]; omega
      have hpk := scanOut_peek sc₁
      have hbound : ∀ q : JudoResult × Scanner,
          ParseOut maxdepth sc₁ q → ParseOut maxdepth sc q := by
        intro q ⟨q1, q2, q3, q4, q5⟩
        exact ⟨fun _ => q1 hlt, q2, q3, q4, q5⟩
      split
      · next hres =>
          have hpstream : (peek sc₁).2.2.stream = sc₁.stream := hpk.2.1 hres
          have hpstack : (peek sc₁).2.2.stream.s_stack = sc₁.stream.s_stack := by
            rw [hpstream]
          split
          · refine hbound _ (parseOut_emit maxdepth sc₁ _ _ rfl ?_)
            exact hpstack
          · split
            · refine hbound _ (parseOut_emit maxdepth sc₁ _ _ rfl ?_)
              exact hpstack
            · split
              · refine hbound _ (parseOut_emit maxdepth sc₁ _ _ rfl ?_)
                exact hpstack
              · split
                · refine hbound _ (parseOut_emit maxdepth sc₁ _ _ rfl ?_)
                  exact hpstack
                · split
                  · refine hbound _ (parseOut_emit maxdepth sc₁ _ _ rfl ?_)
                    exact hpstack
                  · split
                    · refine hbound _ (parseOut_emit maxdepth sc₁ _ _ rfl ?_)
                      exact hpstack
                    · split
                      · refine hbound _ (parseOut_emit maxdepth sc₁ _ _ rfl ?_)
                        exact hpstack
                      · refine hbound _ ?_
                        refine parseOut_of_scanOut maxdepth sc₁ _ ?_
                        exact scanOut_bad_syntax sc₁ _ hpstack _ _ _
      · exact hbound _ (parseOut_of_scanOut maxdepth sc₁ _ hpk)

end Judo

namespace Judo

/-- Variant of `parseOut_emit` for success results that may lower the stack
(the entry pop). -/
theorem parseOut_emit_le (maxdepth : Nat) (sc sc' : Scanner) (r : JudoResult)
    (hr : r = JudoResult.success)
    (hs : sc'.stream.s_stack ≤ sc.stream.s_stack) :
    ParseOut maxdepth sc (r, sc') := by
  subst hr
  refine ⟨fun hb => Nat.lt_of_le_of_lt hs hb, ?_, ?_, ?_, ?_⟩
  all_goals (intro hc; simp at hc)

set_option maxHeartbeats 2000000 in
theorem parseOut_parse_array_element (maxdepth : Nat) (sc : Scanner) :
    ParseOut maxdepth sc (parse_array_element maxdepth sc) := by
  unfold parse_array_element
  dsimp only
  refine parseOut_congr maxdepth _ sc _ ?_ (parseOut_parse_value maxdepth _ _)
  rfl

set_option maxHeartbeats 2000000 in
theorem parseOut_parse_array_element_or_array_end (maxdepth : Nat) (sc : Scanner) :
    ParseOut maxdepth sc (parse_array_element_or_array_end maxdepth sc) := by
  unfold parse_array_element_or_array_end
  dsimp only
  have hpk := scanOut_peek sc
  split
  · next hres =>
      have hpstream : (peek sc).2.2.stream = sc.stream := hpk.2.1 hres
      have hpstack : (peek sc).2.2.stream.s_stack = sc.stream.s_stack :=
        congrArg JudoStream.s_stack hpstream
      split
      · exact parseOut_emit maxdepth sc _ _ rfl hpstack
      · exact parseOut_congr maxdepth _ sc _ hpstack
          (parseOut_parse_array_element maxdepth _)
  · exact parseOut_of_scanOut maxdepth sc _ hpk

set_option maxHeartbeats 2000000 in
theorem parseOut_finished_parsing_array_element (maxdepth : Nat) (sc : Scanner) :
    ParseOut maxdepth sc (finished_parsing_array_element maxdepth sc) := by
  unfold finished_parsing_array_element
  dsimp only
  have hpk := scanOut_peek sc
  split
  · next hres =>
      have hpstream : (peek sc).2.2.stream = sc.stream := hpk.2.1 hres
      have hpstack : (peek sc).2.2.stream.s_stack = sc.stream.s_stack :=
        congrArg JudoStream.s_stack hpstream
      split
      · refine parseOut_congr maxdepth _ sc _ ?_
          (parseOut_parse_array_element maxdepth _)
        exact hpstack
      · split
        · exact parseOut_emit maxdepth sc _ _ rfl hpstack
        · exact parseOut_of_scanOut maxdepth sc _
            ( scanOut_bad_syntax sc _ hpstack _ _ _)
  · exact parseOut_of_scanOut maxdepth sc _ hpk

theorem parseOut_parse_object_key (maxdepth : Nat) (sc : Scanner) (token : Token) :
    ParseOut maxdepth sc (parse_object_key sc token) := by
  unfold parse_object_key
  dsimp only
  split
  · exact parseOut_emit maxdepth sc _ _ rfl rfl
  · exact parseOut_of_scanOut maxdepth sc _ ( scanOut_bad_syntax sc sc rfl _ _ _)

set_option maxHeartbeats 2000000 in
theorem parseOut_parse_object_value (maxdepth : Nat) (sc : Scanner) :
    ParseOut maxdepth sc (parse_object_value maxdepth sc) := by
  unfold parse_object_value
  dsimp only
  have hacc := scanOut_accept sc TokenTag.colon
  split
  · split
    · refine parseOut_congr maxdepth _ sc _ ?_ (parseOut_parse_value maxdepth _ _)
      exact hacc.1
    · exact parseOut_of_scanOut maxdepth sc _
        ( scanOut_bad_syntax sc _ hacc.1 _ _ _)
  · exact parseOut_of_scanOut maxdepth sc _ hacc

set_option maxHeartbeats 2000000 in
theorem parseOut_parse_object_key_or_object_end (maxdepth : Nat) (sc : Scanner) :
    ParseOut maxdepth sc (parse_object_key_or_object_end sc) := by
  unfold parse_object_key_or_object_end
  dsimp only
  have hpk := scanOut_peek sc
  split
  · next hres =>
      have hpstream : (peek sc).2.2.stream = sc.stream := hpk.2.1 hres
      have hpstack : (peek sc).2.2.stream.s_stack = sc.stream.s_stack :=
        congrArg JudoStream.s_stack hpstream
      split
      · exact parseOut_emit maxdepth sc _ _ rfl hpstack
      · exact parseOut_congr maxdepth _ sc _ hpstack
          (parseOut_parse_object_key maxdepth _ _)
  · exact parseOut_of_scanOut maxdepth sc _ hpk

set_option maxHeartbeats 2000000 in
theorem parseOut_finished_parsing_object_value (maxdepth : Nat) (sc : Scanner) :
    ParseOut maxdepth sc (finished_parsing_object_value sc) := by
  unfold finished_parsing_object_value
  dsimp only
  have hpk := scanOut_peek sc
  split
  · next hres =>
      have hpstream : (peek sc).2.2.stream = sc.stream := hpk.2.1 hres
      have hpstack : (peek sc).2.2.stream.s_stack = sc.stream.s_stack :=
        congrArg JudoStream.s_stack hpstream
      split
      · have hq := scanOut_peek (eat (peek sc).2.2 (peek sc).2.1)
        have hqs : (eat (peek sc).2.2 (peek sc).2.1).stream = sc.stream := hpstream
        split
        · next hres2 =>
            have hqstream := hq.2.1 hres2
            refine parseOut_congr maxdepth _ sc _ ?_
              (parseOut_parse_object_key maxdepth _ _)
            rw [hqstream, hqs]
        · refine parseOut_of_scanOut maxdepth sc _ ?_
          exact scanOut_congr _ sc _ hqs hq
      · split
        · exact parseOut_emit maxdepth sc _ _ rfl hpstack
        · exact parseOut_of_scanOut maxdepth sc _
            ( scanOut_bad_syntax sc _ hpstack _ _ _)
  · exact parseOut_of_scanOut maxdepth sc _ hpk

set_option maxHeartbeats 2000000 in
theorem parseOut_parse_root (maxdepth : Nat) (sc : Scanner) :
    ParseOut maxdepth sc (parse_root sc) := by
  unfold parse_root
  dsimp only
  have hb : ∀ sc₂ : Scanner, sc₂.stream = sc.stream →
      ParseOut maxdepth sc
        (if h : (peek sc₂).1 = JudoResult.success then
          (if (peek sc₂).2.1.type = TokenTag.lbrace then parse_array (peek sc₂).2.2 (peek sc₂).2.1
           else if (peek sc₂).2.1.type = TokenTag.lcurlyb then parse_object (peek sc₂).2.2 (peek sc₂).2.1
           else if (peek sc₂).2.1.type = TokenTag.null then parse_null (peek sc₂).2.2 (peek sc₂).2.1
           else if (peek sc₂).2.1.type = TokenTag.number then parse_number (peek sc₂).2.2 (peek sc₂).2.1
           else if (peek sc₂).2.1.type = TokenTag.string then parse_string (peek sc₂).2.2 (peek sc₂).2.1
           else if (peek sc₂).2.1.type = TokenTag.false ∨ (peek sc₂).2.1.type = TokenTag.true then
             parse_bool (peek sc₂).2.2 (peek sc₂).2.1
           else bad_syntax (peek sc₂).2.2 0 0 "expected root value")
         else ((peek sc₂).1, (peek sc₂).2.2)) := by
    intro sc₂ hs
    have hpk' := scanOut_congr sc₂ sc _ hs (scanOut_peek sc₂)
    split
    · next hres =>
        have hpstream : (peek sc₂).2.2.stream = sc.stream := hpk'.2.1 hres
        have hpstack : (peek sc₂).2.2.stream.s_stack = sc.stream.s_stack :=
          congrArg JudoStream.s_stack hpstream
        split
        · exact parseOut_emit maxdepth sc _ _ rfl hpstack
        · split
          · exact parseOut_emit maxdepth sc _ _ rfl hpstack
          · split
            · exact parseOut_emit maxdepth sc _ _ rfl hpstack
            · split
              · exact parseOut_emit maxdepth sc _ _ rfl hpstack
              · split
                · exact parseOut_emit maxdepth sc _ _ rfl hpstack
                · split
                  · exact parseOut_emit maxdepth sc _ _ rfl hpstack
                  · exact parseOut_of_scanOut maxdepth sc _
                      ( scanOut_bad_syntax sc _ hpstack _ _ _)
    · exact parseOut_of_scanOut maxdepth sc _ hpk'
  split
  · exact hb _ rfl
  · exact hb _ rfl

end Judo

namespace Judo

set_option maxHeartbeats 2000000 in
theorem parseOut_judo_scan_entry (maxdepth : Nat) (sc : Scanner) :
    ParseOut maxdepth sc (judo_scan_entry sc) := by
  unfold judo_scan_entry
  dsimp only
  split
  · split
    · have hpk := scanOut_peek sc
      split
      · next hres =>
          have hpstream : (peek sc).2.2.stream = sc.stream := hpk.2.1 hres
          have hpstack : (peek sc).2.2.stream.s_stack = sc.stream.s_stack :=
            congrArg JudoStream.s_stack hpstream
          split
          · exact parseOut_emit maxdepth sc _ _ rfl hpstack
          · exact parseOut_of_scanOut maxdepth sc _
              ( scanOut_bad_syntax sc _ hpstack _ _ _)
      · exact parseOut_of_scanOut maxdepth sc _ hpk
    · exact parseOut_emit_le maxdepth sc _ _ rfl (Nat.sub_le _ _)
  · exact parseOut_emit maxdepth sc _ _ rfl rfl

set_option maxHeartbeats 2000000 in
theorem parseOut_judo_scan_dispatch (maxdepth : Nat) (sc : Scanner) :
    ParseOut maxdepth sc (judo_scan_dispatch maxdepth sc) := by
  unfold judo_scan_dispatch
  dsimp only
  split
  · exact parseOut_parse_root maxdepth sc
  · split
    · exact parseOut_finished_parsing_array_element maxdepth sc
    · split
      · exact parseOut_parse_array_element_or_array_end maxdepth sc
      · split
        · exact parseOut_parse_object_key_or_object_end maxdepth sc
        · split
          · exact parseOut_parse_object_value maxdepth sc
          · split
            · exact parseOut_finished_parsing_object_value maxdepth sc
            · split
              · next hst =>
                  exact ⟨id, fun _ => hst, fun hc => JudoResult.noConfusion hc,
                    fun hc => JudoResult.noConfusion hc, fun hc => JudoResult.noConfusion hc⟩
              · split
                · next hst =>
                    exact ⟨id, fun hc => JudoResult.noConfusion hc, fun _ => hst,
                      fun _ => hst, fun hc => JudoResult.noConfusion hc⟩
                · split
                  · next hst =>
                      exact ⟨id, fun hc => JudoResult.noConfusion hc,
                        fun hc => JudoResult.noConfusion hc,
                        fun hc => JudoResult.noConfusion hc, fun _ => hst⟩
                  · split
                    · exact ⟨id, fun hc => JudoResult.noConfusion hc,
                        fun hc => JudoResult.noConfusion hc,
                        fun hc => JudoResult.noConfusion hc, fun hc => JudoResult.noConfusion hc⟩
                    · exact ⟨id, fun hc => JudoResult.noConfusion hc,
                        fun hc => JudoResult.noConfusion hc,
                        fun hc => JudoResult.noConfusion hc, fun hc => JudoResult.noConfusion hc⟩

/-- Result/state correspondence for a whole `judo_scan` call: the stack-depth
bound is preserved and every non-success result latches the matching terminal
state at the top of the stack (note `inputTooLarge` latches `ENCODING_ERROR`). -/
theorem judo_scan_state (maxdepth : Nat) (s : JudoStream) (source : Nat → Nat)
    (length : Int) :
    (s.s_stack < maxdepth → (judo_scan maxdepth s source length).2.s_stack < maxdepth) ∧
    ((judo_scan maxdepth s source length).1 = JudoResult.badSyntax →
      (judo_scan maxdepth s source length).2.s_state
        (judo_scan maxdepth s source length).2.s_stack = SCAN_STATE_PARSING_ERROR) ∧
    ((judo_scan maxdepth s source length).1 = JudoResult.illegalByteSequence →
      (judo_scan maxdepth s source length).2.s_state
        (judo_scan maxdepth s source length).2.s_stack = SCAN_STATE_ENCODING_ERROR) ∧
    ((judo_scan maxdepth s source length).1 = JudoResult.inputTooLarge →
      (judo_scan maxdepth s source length).2.s_state
        (judo_scan maxdepth s source length).2.s_stack = SCAN_STATE_ENCODING_ERROR) ∧
    ((judo_scan maxdepth s source length).1 = JudoResult.maximumNesting →
      (judo_scan maxdepth s source length).2.s_state
        (judo_scan maxdepth s source length).2.s_stack = SCAN_STATE_MAX_NESTING_ERROR) := by
  unfold judo_scan
  dsimp only
  split
  · refine ⟨?_, ?_, ?_, ?_, ?_⟩
    · rw [bad_input_size_s_stack]; exact id
    all_goals
      (intro hc
       first
         | (rw [bad_input_size_result] at hc
            exact absurd hc (by decide))
         | exact bad_input_size_top s)
  · have hent := parseOut_judo_scan_entry maxdepth
      { string := source, string_length := length, index := s.s_at, stream := s }
    split
    · next hres =>
        have hdis := parseOut_judo_scan_dispatch maxdepth
          (judo_scan_entry
            { string := source, string_length := length, index := s.s_at, stream := s }).2
        exact ⟨fun hb => hdis.1 (hent.1 hb), hdis.2.1, hdis.2.2.1, hdis.2.2.2.1,
          hdis.2.2.2.2⟩
    · exact ⟨fun hb => hent.1 hb, hent.2.1, hent.2.2.1, hent.2.2.2.1, hent.2.2.2.2⟩

end Judo

namespace Judo

/-- Iterate `judo_scan` `n` times starting from a zero-initialised stream,
keeping only the stream handle (the caller-visible state). -/
def judo_scan_iter (maxdepth : Nat) (source : Nat → Nat) (length : Int) :
    Nat → JudoStream
  | 0 => zeroStream
  | n + 1 =>
      (judo_scan maxdepth (judo_scan_iter maxdepth source length n) source length).2

/-- C4: for every positive nesting bound, a single `judo_scan` call preserves
the stack-depth invariant `s_stack < JUDO_MAXDEPTH` for every stream and every
source, and consequently the invariant holds after each call of every sequence
of `judo_scan` calls started on a zero-initialised stream (the lower bound
`0 ≤ s_stack` is inherent in the `Nat` model: the only decrement, in the
entry logic of `judo_scan`, is guarded by `s_stack ≠ 0`). -/
theorem judo_scan_stack_invariant (maxdepth : Nat) (hmd : 0 < maxdepth) :
    (∀ (s : JudoStream) (source : Nat → Nat) (length : Int),
       s.s_stack < maxdepth →
       (judo_scan maxdepth s source length).2.s_stack < maxdepth) ∧
    (∀ (source : Nat → Nat) (length : Int) (n : Nat),
       (judo_scan_iter maxdepth source length n).s_stack < maxdepth) := by
  refine ⟨fun s source length h => (judo_scan_state maxdepth s source length).1 h, ?_⟩
  intro source length n
  induction n with
  | zero => exact hmd
  | succ n ih => exact (judo_scan_state maxdepth _ source length).1 ih

theorem judo_scan_stack_invariant_witness :
    0 < 3 ∧ (judo_scan_iter 3 exampleSource 23 4).s_stack < 3 :=
  ⟨by decide, (judo_scan_stack_invariant 3 (by decide)).2 exampleSource 23 4⟩

end Judo

namespace Judo

set_option maxHeartbeats 2000000 in
/-- A stream whose top state is one of the three terminal error states keeps
returning the matching result code (note `ENCODING_ERROR` maps to
`illegalByteSequence`) with the stream — span, cursor and all — unchanged,
provided the length pre-check does not fire. -/
theorem judo_scan_latched (maxdepth : Nat) (s : JudoStream) (source : Nat → Nat)
    (length : Int) (hlen : ¬((JUDO_MAXIMUM_INPUT_SIZE : Int) ≤ length)) :
    (s.s_state s.s_stack = SCAN_STATE_PARSING_ERROR →
      judo_scan maxdepth s source length = (JudoResult.badSyntax, s)) ∧
    (s.s_state s.s_stack = SCAN_STATE_ENCODING_ERROR →
      judo_scan maxdepth s source length = (JudoResult.illegalByteSequence, s)) ∧
    (s.s_state s.s_stack = SCAN_STATE_MAX_NESTING_ERROR →
      judo_scan maxdepth s source length = (JudoResult.maximumNesting, s)) := by
  refine ⟨fun hst => ?_, fun hst => ?_, fun hst => ?_⟩ <;>
    (unfold judo_scan judo_scan_entry judo_scan_dispatch
     rw [if_neg hlen]
     simp only [SCAN_STATE_PARSING_ERROR, SCAN_STATE_ENCODING_ERROR,
       SCAN_STATE_MAX_NESTING_ERROR] at hst
     simp [hst, SCAN_STATE_FINISHED_PARSING_VALUE, SCAN_STATE_ROOT_VALUE,
       SCAN_STATE_FINISHED_PARSING_ARRAY_ELEMENT,
       SCAN_STATE_PARSE_ARRAY_END_OR_ARRAY_ELEMENT,
       SCAN_STATE_PARSE_OBJECT_KEY_OR_OBJECT_END, SCAN_STATE_PARSE_OBJECT_VALUE,
       SCAN_STATE_FINISHED_PARSING_OBJECT_VALUE, SCAN_STATE_PARSING_ERROR,
       SCAN_STATE_ENCODING_ERROR, SCAN_STATE_MAX_NESTING_ERROR,
       SCAN_STATE_FINISHED_PARSING])

end Judo

namespace Judo

/-- C3 (counterexample): when `judo_scan` returns the input-too-large failure
raised while decoding a NUL-terminated input (here: cursor one byte below the
1 GB cap), the stream latches into `ENCODING_ERROR`, so the next call returns
`illegalByteSequence`, NOT `inputTooLarge` — the result code is not the same. -/
theorem judo_scan_error_latching_counterexample :
    (judo_scan 64 { zeroStream with s_at := 2 ^ 30 - 1 } (fun _ => 97) (-1)).1
        = JudoResult.inputTooLarge ∧
    (judo_scan 64
        (judo_scan 64 { zeroStream with s_at := 2 ^ 30 - 1 } (fun _ => 97) (-1)).2
        (fun _ => 97) (-1)).1 = JudoResult.illegalByteSequence ∧
    JudoResult.illegalByteSequence ≠ JudoResult.inputTooLarge := by
  refine ⟨by decide, by decide, by decide⟩

/-- C3 (amended): once a `judo_scan` call (on an input passing the length
pre-check) returns `badSyntax`, `maximumNesting` or `illegalByteSequence`,
every subsequent call returns the same result code and leaves the stream —
including the where-span and the cursor `s_at` — completely unchanged; but
after `inputTooLarge` subsequent calls return `illegalByteSequence` (again
with the stream unchanged), not the same code. -/
theorem judo_scan_error_latching (maxdepth : Nat) (s : JudoStream)
    (source : Nat → Nat) (length : Int)
    (hlen : ¬((JUDO_MAXIMUM_INPUT_SIZE : Int) ≤ length)) :
    ((judo_scan maxdepth s source length).1 = JudoResult.badSyntax →
      judo_scan maxdepth (judo_scan maxdepth s source length).2 source length
        = (JudoResult.badSyntax, (judo_scan maxdepth s source length).2)) ∧
    ((judo_scan maxdepth s source length).1 = JudoResult.maximumNesting →
      judo_scan maxdepth (judo_scan maxdepth s source length).2 source length
        = (JudoResult.maximumNesting, (judo_scan maxdepth s source length).2)) ∧
    ((judo_scan maxdepth s source length).1 = JudoResult.illegalByteSequence →
      judo_scan maxdepth (judo_scan maxdepth s source length).2 source length
        = (JudoResult.illegalByteSequence, (judo_scan maxdepth s source length).2)) ∧
    ((judo_scan maxdepth s source length).1 = JudoResult.inputTooLarge →
      judo_scan maxdepth (judo_scan maxdepth s source length).2 source length
        = (JudoResult.illegalByteSequence, (judo_scan maxdepth s source length).2)) := by
  have hstate := judo_scan_state maxdepth s source length
  have hlatch := judo_scan_latched maxdepth
    (judo_scan maxdepth s source length).2 source length hlen
  exact ⟨fun h => hlatch.1 (hstate.2.1 h),
    fun h => hlatch.2.2 (hstate.2.2.2.2 h),
    fun h => hlatch.2.1 (hstate.2.2.1 h),
    fun h => hlatch.2.1 (hstate.2.2.2.1 h)⟩

theorem judo_scan_error_latching_witness :
    (¬((JUDO_MAXIMUM_INPUT_SIZE : Int) ≤ 1) ∧
      (judo_scan 16 zeroStream (fun _ => 64) 1).1 = JudoResult.badSyntax) ∧
    judo_scan 16 (judo_scan 16 zeroStream (fun _ => 64) 1).2 (fun _ => 64) 1
      = (JudoResult.badSyntax, (judo_scan 16 zeroStream (fun _ => 64) 1).2) :=
  ⟨⟨by decide, by decide⟩,
   (judo_scan_error_latching 16 zeroStream (fun _ => 64) 1 (by decide)).1 (by decide)⟩

end Judo

namespace Judo

/-- The 8-byte input `"\uD834"`: a quoted string holding a lone
high-surrogate escape. -/
def loneHighSurrogateSource : Nat → Nat := fun i =>
  [34, 92, 117, 68, 56, 51, 52, 34].getD i 0

set_option maxHeartbeats 1000000 in
/-- C6: scanning the 8-byte input `"\uD834"` (any nesting bound at least 2)
returns bad-syntax with where-span offset 1, length 6 and the error message
`unmatched surrogate pair`; and in general, in `scan_string`, a `\uHHHH`
escape whose four hex digits decode to a high surrogate that is not
immediately followed by a `\uHHHH` escape decoding to a low surrogate, and a
`\uHHHH` escape decoding to a lone low surrogate, are both rejected with that
message, spanning the escape. -/
theorem judo_scan_unmatched_surrogate (md : Nat) (hmd : 2 ≤ md) :
    ((judo_scan md zeroStream loneHighSurrogateSource 8).1 = JudoResult.badSyntax ∧
     (judo_scan md zeroStream loneHighSurrogateSource 8).2.whereSpan = ⟨1, 6⟩ ∧
     (judo_scan md zeroStream loneHighSurrogateSource 8).2.error =
       "unmatched surrogate pair") ∧
    (∀ (sc : Scanner) (a i : Nat),
       (collect_four_hex sc.string sc.string_length 4 i []).1.length = 4 →
       is_high_surrogate
           (parse_character (collect_four_hex sc.string sc.string_length 4 i []).1)
         = Bool.true →
       is_low_surrogate
           (low_surrogate_candidate sc
             (collect_four_hex sc.string sc.string_length 4 i []).2
             (parse_character
               (collect_four_hex sc.string sc.string_length 4 i []).1)).1
         = Bool.false →
       scan_string_unicode_escape sc a i =
         StrStep.err JudoResult.badSyntax
           ( bad_syntax sc a ((collect_four_hex sc.string sc.string_length 4 i []).2 - a)
             "unmatched surrogate pair").2) ∧
    (∀ (sc : Scanner) (a i : Nat),
       (collect_four_hex sc.string sc.string_length 4 i []).1.length = 4 →
       is_low_surrogate
           (parse_character (collect_four_hex sc.string sc.string_length 4 i []).1)
         = Bool.true →
       scan_string_unicode_escape sc a i =
         StrStep.err JudoResult.badSyntax
           ( bad_syntax sc a ((collect_four_hex sc.string sc.string_length 4 i []).2 - a)
             "unmatched surrogate pair").2) := by
  refine ⟨?_, ?_, ?_⟩
  · rcases judo_scan_mono 2 md hmd zeroStream loneHighSurrogateSource 8 with he | hm
    · rw [← he]
      exact ⟨by decide, by decide, by decide⟩
    · exact absurd hm (by decide)
  · intro sc a i hlen hhigh hlow
    unfold scan_string_unicode_escape
    dsimp only
    rw [if_neg (by rw [hlen]; decide), if_pos hhigh]
    unfold scan_string_low_surrogate
    dsimp only
    rw [if_pos (by simp [hlow])]
    rfl
  · intro sc a i hlen hlowcp
    have hh : is_high_surrogate
        (parse_character (collect_four_hex sc.string sc.string_length 4 i []).1)
        = Bool.false := by
      have hl := of_decide_eq_true hlowcp
      exact decide_eq_false (by omega)
    unfold scan_string_unicode_escape
    dsimp only
    rw [if_neg (by rw [hlen]; decide), if_neg (by simp [hh]), if_pos hlowcp]
    rfl

end Judo

namespace Judo

/-- The 8-byte input `"\uDC00"`: a quoted string holding a lone
low-surrogate escape. -/
def loneLowSurrogateSource : Nat → Nat := fun i =>
  [34, 92, 117, 68, 67, 48, 48, 34].getD i 0

/-- A scanner over `loneHighSurrogateSource`. -/
def surrogateScannerHigh : Scanner :=
  { string := loneHighSurrogateSource, string_length := 8, index := 0,
    stream := zeroStream }

/-- A scanner over `loneLowSurrogateSource`. -/
def surrogateScannerLow : Scanner :=
  { string := loneLowSurrogateSource, string_length := 8, index := 0,
    stream := zeroStream }

theorem judo_scan_unmatched_surrogate_witness :
    (2 ≤ 2 ∧
     (judo_scan 2 zeroStream loneHighSurrogateSource 8).1 = JudoResult.badSyntax) ∧
    ((collect_four_hex surrogateScannerHigh.string surrogateScannerHigh.string_length
        4 3 []).1.length = 4 ∧
     scan_string_unicode_escape surrogateScannerHigh 1 3 =
       StrStep.err JudoResult.badSyntax
         ( bad_syntax surrogateScannerHigh 1
           ((collect_four_hex surrogateScannerHigh.string
              surrogateScannerHigh.string_length 4 3 []).2 - 1)
           "unmatched surrogate pair").2) ∧
    scan_string_unicode_escape surrogateScannerLow 1 3 =
      StrStep.err JudoResult.badSyntax
        ( bad_syntax surrogateScannerLow 1
          ((collect_four_hex surrogateScannerLow.string
             surrogateScannerLow.string_length 4 3 []).2 - 1)
          "unmatched surrogate pair").2 :=
  ⟨⟨by decide, ((judo_scan_unmatched_surrogate 2 (by decide)).1).1⟩,
   ⟨by decide,
    (judo_scan_unmatched_surrogate 2 (by decide)).2.1 surrogateScannerHigh 1 3
      (by decide) (by decide) (by decide)⟩,
   (judo_scan_unmatched_surrogate 2 (by decide)).2.2 surrogateScannerLow 1 3
     (by decide) (by decide)⟩

end Judo

namespace Judo

/-! ### The tree accessors of `judo_parse.c`.

Pointers are `Option Nat` addresses into a heap of value and member nodes.  A
`JudoValueNode` carries the base `struct judo_value` fields plus the extended
fields of the wider `struct boolean` / `struct array` / `struct object`
records it may head (the C code reaches them by down-casting). -/

/-- `enum judo_type`. -/
inductive JudoType where
  | invalid
  | null
  | bool
  | number
  | string
  | array
  | object
  deriving DecidableEq, Repr

/-- A `judo_value` node with the casted-record fields. -/
structure JudoValueNode where
  next : Option Nat
  whereSpan : JudoSpan
  type : JudoType
  bval : Bool
  anext : Option Nat
  alen : Int
  omembers : Option Nat
  osize : Int

/-- A `judo_member` node. -/
structure JudoMemberNode where
  next : Option Nat
  value : Option Nat
  name : JudoSpan

/-- The allocator's heap of parsed nodes. -/
structure JudoHeap where
  values : Nat → JudoValueNode
  members : Nat → JudoMemberNode

/-- `judo_gettype`. -/
def judo_gettype (h : JudoHeap) (value : Option Nat) : JudoType :=
  match value with
  | none => JudoType.invalid
  | some v => (h.values v).type

/-- `judo_first`. -/
def judo_first (h : JudoHeap) (value : Option Nat) : Option Nat :=
  match value with
  | none => none
  | some v =>
      if (h.values v).type ≠ JudoType.array then none
      else (h.values v).anext

/-- `judo_next`. -/
def judo_next (h : JudoHeap) (value : Option Nat) : Option Nat :=
  match value with
  | none => none
  | some v => (h.values v).next

/-- `judo_membfirst`. -/
def judo_membfirst (h : JudoHeap) (value : Option Nat) : Option Nat :=
  match value with
  | none => none
  | some v =>
      if (h.values v).type ≠ JudoType.object then none
      else (h.values v).omembers

/-- `judo_membnext`. -/
def judo_membnext (h : JudoHeap) (member : Option Nat) : Option Nat :=
  match member with
  | none => none
  | some m => (h.members m).next

/-- `judo_tobool`. -/
def judo_tobool (h : JudoHeap) (value : Option Nat) : Bool :=
  match value with
  | none => Bool.false
  | some v =>
      if (h.values v).type = JudoType.bool then (h.values v).bval
      else Bool.false

/-- `judo_name2span`. -/
def judo_name2span (h : JudoHeap) (member : Option Nat) : JudoSpan :=
  match member with
  | none => ⟨0, 0⟩
  | some m => (h.members m).name

/-- `judo_len`. -/
def judo_len (h : JudoHeap) (value : Option Nat) : Int :=
  match value with
  | none => 0
  | some v =>
      if (h.values v).type = JudoType.array then (h.values v).alen
      else if (h.values v).type = JudoType.object then (h.values v).osize
      else 0

/-- `judo_membvalue`. -/
def judo_membvalue (h : JudoHeap) (member : Option Nat) : Option Nat :=
  match member with
  | none => none
  | some m => (h.members m).value

/-- `judo_value2span`. -/
def judo_value2span (h : JudoHeap) (value : Option Nat) : JudoSpan :=
  match value with
  | none => ⟨0, 0⟩
  | some v => (h.values v).whereSpan

/-- C10: every tree accessor is total on degenerate arguments, for every
heap: `judo_gettype` on NULL is `JUDO_TYPE_INVALID`; `judo_len` is 0 on NULL
and on values that are neither arrays nor objects; `judo_first`, `judo_next`,
`judo_membfirst`, `judo_membnext` and `judo_membvalue` are NULL on NULL (and
`judo_first` / `judo_membfirst` also on values of the wrong type);
`judo_name2span` and `judo_value2span` are the zero span on NULL. -/
theorem judo_accessors_total (h : JudoHeap) :
    judo_gettype h none = JudoType.invalid ∧
    judo_len h none = 0 ∧
    (∀ v : Nat, (h.values v).type ≠ JudoType.array →
       (h.values v).type ≠ JudoType.object → judo_len h (some v) = 0) ∧
    judo_first h none = none ∧
    (∀ v : Nat, (h.values v).type ≠ JudoType.array → judo_first h (some v) = none) ∧
    judo_next h none = none ∧
    judo_membfirst h none = none ∧
    (∀ v : Nat, (h.values v).type ≠ JudoType.object →
       judo_membfirst h (some v) = none) ∧
    judo_membnext h none = none ∧
    judo_membvalue h none = none ∧
    judo_name2span h none = ⟨0, 0⟩ ∧
    judo_value2span h none = ⟨0, 0⟩ := by
  refine ⟨rfl, rfl, ?_, rfl, ?_, rfl, rfl, ?_, rfl, rfl, rfl, rfl⟩
  · intro v ha ho
    unfold judo_len
    dsimp only
    rw [if_neg ha, if_neg ho]
  · intro v ha
    unfold judo_first
    dsimp only
    rw [if_pos ha]
  · intro v ho
    unfold judo_membfirst
    dsimp only
    rw [if_pos ho]

/-- A heap whose every node is zeroed. -/
def trivialHeap : JudoHeap :=
  { values := fun _ =>
      { next := none, whereSpan := ⟨0, 0⟩, type := JudoType.null,
        bval := Bool.false, anext := none, alen := 0, omembers := none,
        osize := 0 },
    members := fun _ => { next := none, value := none, name := ⟨0, 0⟩ } }

theorem judo_accessors_total_witness :
    judo_gettype trivialHeap none = JudoType.invalid ∧
    ((trivialHeap.values 0).type ≠ JudoType.array ∧
     (trivialHeap.values 0).type ≠ JudoType.object) ∧
    judo_len trivialHeap (some 0) = 0 ∧
    judo_first trivialHeap (some 0) = none ∧
    judo_membfirst trivialHeap (some 0) = none :=
  ⟨(judo_accessors_total trivialHeap).1,
   ⟨by decide, by decide⟩,
   (judo_accessors_total trivialHeap).2.2.1 0 (by decide) (by decide),
   (judo_accessors_total trivialHeap).2.2.2.2.1 0 (by decide),
   (judo_accessors_total trivialHeap).2.2.2.2.2.2.2.1 0 (by decide)⟩

end Judo

namespace Judo

/-! ### Claim C2: `JUDO_MAXDEPTH` enforcement on the nested-array family.

`nestSrc k` is the canonical input of structural nesting depth `k`: `k`
opening brackets followed by `k` closing brackets.  The scan of `nestSrc k`
is computed symbolically for arbitrary `k` via closed stream formulas for the
opening phase, the closing phase and the final EOF state. -/

/-- `k` opening brackets then `k` closing brackets (`[[…[]…]]`). -/
def nestSrc (k : Nat) : Nat → Nat := fun i =>
  if i < k then 91 else if i < 2 * k then 93 else 0

/-- The stream after the `j`-th successful opening call (`1 ≤ j`). -/
def openStream (j : Nat) : JudoStream :=
  { s_at := j, whereSpan := ⟨j - 1, 1⟩, token := JudoToken.arrayBegin,
    s_stack := j - 1,
    s_state := fun i => if i < j - 1 then 4 else if i = j - 1 then 3 else 0,
    error := "" }

/-- The stream after the `j`-th successful closing call on `nestSrc k`. -/
def closeStream (k j : Nat) : JudoStream :=
  { s_at := k + j, whereSpan := ⟨k + j - 1, 1⟩, token := JudoToken.arrayEnd,
    s_stack := k - j,
    s_state := fun i => if i < k - j then 4 else if i < k then 1 else 0,
    error := "" }

/-- The stream after the final EOF call on `nestSrc k`. -/
def finStream (k : Nat) : JudoStream :=
  { s_at := 2 * k, whereSpan := ⟨2 * k, 0⟩, token := JudoToken.eof,
    s_stack := 0,
    s_state := fun i => if i = 0 then 11 else if i < k then 1 else 0,
    error := "" }

theorem judoStream_eq {a b : JudoStream} (h1 : a.s_at = b.s_at)
    (h2 : a.whereSpan = b.whereSpan) (h3 : a.token = b.token)
    (h4 : a.s_stack = b.s_stack) (h5 : ∀ i, a.s_state i = b.s_state i)
    (h6 : a.error = b.error) : a = b := by
  cases a
  cases b
  dsimp only at h1 h2 h3 h4 h5 h6
  simp only [JudoStream.mk.injEq]
  exact ⟨h1, h2, h3, h4, funext h5, h6⟩

/-- Decoding a one-byte sequence whose tables all cooperate (every ASCII
byte): the byte itself, one byte consumed. -/
theorem utf8_decode_ascii (string : Nat → Nat) (length : Int) (cursor c : Nat)
    (hb : string cursor = c)
    (h1 : bytes_needed_for_UTF8_sequence.getD c 0 = 1)
    (h2 : c &&& 0xFF = c)
    (h3 : next_UTF8_DFA.getD (byte_to_character_class.getD c 0) 0 = 0)
    (hlen : (cursor : Int) + 1 ≤ length) (h0 : 0 ≤ length)
    (hcap : cursor + 1 < JUDO_MAXIMUM_INPUT_SIZE) :
    utf8_decode string length cursor = (c, 1) := by
  have hmask : bytes_needed_for_UTF8_sequence.getD (256 + 1) 0 = 0xFF := by decide
  have hA : ¬(0 ≤ length ∧ length ≤ (cursor : Int)) := by intro hcon; omega
  have hB : ¬(length < 0) := by omega
  have hD : ¬(JUDO_MAXIMUM_INPUT_SIZE ≤ cursor + 1) := Nat.not_le.mpr hcap
  unfold utf8_decode truncated_seqlen declared_seqlen
  dsimp only
  rw [hb, h1]
  rw [if_neg hA, if_neg hB]
  rw [if_neg (show ¬(length - (cursor : Int) < ((1 : Nat) : Int)) by push_cast; omega)]
  rw [if_neg hD, if_pos (show (0 : Nat) < 1 by decide)]
  rw [hmask, h2, h3]
  rw [show utf8_decode_loop string cursor (1 - 1) 1 c 0 = (c, 0) from rfl]
  dsimp only
  rw [if_pos rfl]
  rw [if_neg (show ¬(length < 0 ∧ c = 0) from fun hcon => absurd hcon.1 hB)]

/-- Decoding at or past the end of a length-prefixed input: end of input. -/
theorem utf8_decode_at_end (string : Nat → Nat) (length : Int) (cursor : Nat)
    (h0 : 0 ≤ length) (hle : length ≤ (cursor : Int)) :
    utf8_decode string length cursor = (0, 0) := by
  unfold utf8_decode
  rw [if_pos ⟨h0, hle⟩]

/-- The whitespace loop does not move when the code point at the cursor is
not whitespace. -/
theorem consume_space_loop_nonspace (string : Nat → Nat) (len : Int)
    (fuel index : Nat)
    (h : is_space (utf8_decode string len index).1 = Bool.false) :
    consume_space_loop string len fuel index = index := by
  cases fuel with
  | zero => rfl
  | succ n =>
      unfold consume_space_loop
      dsimp only
      rw [h]
      simp

/-- `peek` at a `[`. -/
theorem peek_lbrack (sc : Scanner) (hb : sc.string sc.index = 91)
    (hlen : (sc.index : Int) + 1 ≤ sc.string_length) (h0 : 0 ≤ sc.string_length)
    (hcap : sc.index + 1 < JUDO_MAXIMUM_INPUT_SIZE) :
    peek sc = (JudoResult.success,
      { type := TokenTag.lbrace, lexeme := sc.index, lexeme_length := 1 }, sc) := by
  have hdec : utf8_decode sc.string sc.string_length sc.index = (91, 1) :=
    utf8_decode_ascii sc.string sc.string_length sc.index 91 hb (by decide)
      (by decide) (by decide) hlen h0 hcap
  have hcs : consume_space_loop sc.string sc.string_length LOOP_FUEL sc.index
      = sc.index :=
    consume_space_loop_nonspace sc.string sc.string_length LOOP_FUEL sc.index
      (by rw [hdec]; decide)
  unfold peek consume_space_and_comments
  dsimp only
  rw [hcs, hdec]
  dsimp only
  rw [if_neg (by decide), if_neg (by decide), if_neg (by decide),
    if_neg (by decide), if_neg (by decide), if_neg (by decide),
    if_neg (by decide), if_pos rfl]

/-- `peek` at a `]`. -/
theorem peek_rbrack (sc : Scanner) (hb : sc.string sc.index = 93)
    (hlen : (sc.index : Int) + 1 ≤ sc.string_length) (h0 : 0 ≤ sc.string_length)
    (hcap : sc.index + 1 < JUDO_MAXIMUM_INPUT_SIZE) :
    peek sc = (JudoResult.success,
      { type := TokenTag.rbrace, lexeme := sc.index, lexeme_length := 1 }, sc) := by
  have hdec : utf8_decode sc.string sc.string_length sc.index = (93, 1) :=
    utf8_decode_ascii sc.string sc.string_length sc.index 93 hb (by decide)
      (by decide) (by decide) hlen h0 hcap
  have hcs : consume_space_loop sc.string sc.string_length LOOP_FUEL sc.index
      = sc.index :=
    consume_space_loop_nonspace sc.string sc.string_length LOOP_FUEL sc.index
      (by rw [hdec]; decide)
  unfold peek consume_space_and_comments
  dsimp only
  rw [hcs, hdec]
  dsimp only
  rw [if_neg (by decide), if_neg (by decide), if_neg (by decide),
    if_neg (by decide), if_neg (by decide), if_neg (by decide),
    if_neg (by decide), if_neg (by decide), if_pos rfl]

/-- `peek` at the end of a length-prefixed input. -/
theorem peek_at_end (sc : Scanner) (h0 : 0 ≤ sc.string_length)
    (hle : sc.string_length ≤ (sc.index : Int)) :
    peek sc = (JudoResult.success,
      { type := TokenTag.eof, lexeme := sc.index, lexeme_length := 0 }, sc) := by
  have hdec : utf8_decode sc.string sc.string_length sc.index = (0, 0) :=
    utf8_decode_at_end sc.string sc.string_length sc.index h0 hle
  have hcs : consume_space_loop sc.string sc.string_length LOOP_FUEL sc.index
      = sc.index :=
    consume_space_loop_nonspace sc.string sc.string_length LOOP_FUEL sc.index
      (by rw [hdec]; decide)
  unfold peek consume_space_and_comments
  dsimp only
  rw [hcs, hdec]
  dsimp only
  rw [if_neg (by decide), if_neg (by decide), if_pos rfl, if_neg (by decide)]

end Judo

namespace Judo

/-- The entry logic is a no-op on any state other than
`FINISHED_PARSING_VALUE`. -/
theorem judo_scan_entry_nonfin (sc : Scanner)
    (h : sc.stream.s_state sc.stream.s_stack ≠ SCAN_STATE_FINISHED_PARSING_VALUE) :
    judo_scan_entry sc = (JudoResult.success, sc) := by
  unfold judo_scan_entry
  rw [if_neg h]

/-- Dispatch on `ROOT_VALUE`. -/
theorem judo_scan_dispatch_root (md : Nat) (sc : Scanner)
    (h : sc.stream.s_state sc.stream.s_stack = SCAN_STATE_ROOT_VALUE) :
    judo_scan_dispatch md sc = parse_root sc := by
  unfold judo_scan_dispatch
  dsimp only
  rw [h, if_pos rfl]

/-- Dispatch on `PARSE_ARRAY_END_OR_ARRAY_ELEMENT`. -/
theorem judo_scan_dispatch_arr (md : Nat) (sc : Scanner)
    (h : sc.stream.s_state sc.stream.s_stack
      = SCAN_STATE_PARSE_ARRAY_END_OR_ARRAY_ELEMENT) :
    judo_scan_dispatch md sc = parse_array_element_or_array_end md sc := by
  unfold judo_scan_dispatch
  dsimp only
  rw [h, if_neg (by decide), if_neg (by decide), if_pos rfl]

/-- Dispatch on `FINISHED_PARSING_ARRAY_ELEMENT`. -/
theorem judo_scan_dispatch_finarr (md : Nat) (sc : Scanner)
    (h : sc.stream.s_state sc.stream.s_stack
      = SCAN_STATE_FINISHED_PARSING_ARRAY_ELEMENT) :
    judo_scan_dispatch md sc = finished_parsing_array_element md sc := by
  unfold judo_scan_dispatch
  dsimp only
  rw [h, if_neg (by decide), if_pos rfl]

/-- Dispatch on `FINISHED_PARSING`. -/
theorem judo_scan_dispatch_done (md : Nat) (sc : Scanner)
    (h : sc.stream.s_state sc.stream.s_stack = SCAN_STATE_FINISHED_PARSING) :
    judo_scan_dispatch md sc = (JudoResult.success, sc) := by
  unfold judo_scan_dispatch
  dsimp only
  rw [h, if_neg (by decide), if_neg (by decide), if_neg (by decide),
    if_neg (by decide), if_neg (by decide), if_neg (by decide),
    if_neg (by decide), if_neg (by decide), if_neg (by decide), if_pos rfl]

/-- `parse_value` when the nesting guard fires. -/
theorem parse_value_guard (md : Nat) (sc : Scanner) (msg : String)
    (h : md - 1 ≤ sc.stream.s_stack) :
    parse_value md sc msg = max_nesting_depth sc := by
  unfold parse_value
  rw [if_pos h]

/-- `parse_value` positioned at a `[` under the nesting bound: pushes a
stack frame, emits `ARRAY_BEGIN` over the bracket and enters the
array-element state. -/
theorem parse_value_at_lbrack (md : Nat) (sc : Scanner) (msg : String)
    (hb : sc.string sc.index = 91)
    (hlen : (sc.index : Int) + 1 ≤ sc.string_length) (h0 : 0 ≤ sc.string_length)
    (hcap : sc.index + 1 < JUDO_MAXIMUM_INPUT_SIZE)
    (hguard : sc.stream.s_stack + 1 < md) :
    parse_value md sc msg =
      (JudoResult.success,
       { string := sc.string, string_length := sc.string_length,
         index := sc.index + 1,
         stream :=
           { s_at := sc.stream.s_at, whereSpan := ⟨sc.index, 1⟩,
             token := JudoToken.arrayBegin, s_stack := sc.stream.s_stack + 1,
             s_state := fun i =>
               if i = sc.stream.s_stack + 1 then 3 else sc.stream.s_state i,
             error := sc.stream.error } }) := by
  have hpk := peek_lbrack
    { sc with stream := { sc.stream with s_stack := sc.stream.s_stack + 1 } }
    hb hlen h0 hcap
  unfold parse_value
  dsimp only
  rw [if_neg (show ¬(md - 1 ≤ sc.stream.s_stack) by omega)]
  rw [hpk]
  dsimp only
  rw [if_pos rfl, if_neg (by decide), if_neg (by decide), if_neg (by decide),
    if_neg (by decide), if_neg (by decide), if_pos rfl]
  rfl

end Judo

namespace Judo

/-- The body of `judo_scan` after the input-size pre-check, on the per-call
scanner. -/
def judo_scan_body (md : Nat) (sc : Scanner) : JudoResult × JudoStream :=
  let entry := judo_scan_entry sc
  if entry.1 = JudoResult.success then
    let d := judo_scan_dispatch md entry.2
    (d.1, { d.2.stream with s_at := d.2.index })
  else
    (entry.1, entry.2.stream)

theorem judo_scan_eq_body (md : Nat) (s : JudoStream) (source : Nat → Nat)
    (length : Int) (hlen : ¬((JUDO_MAXIMUM_INPUT_SIZE : Int) ≤ length)) :
    judo_scan md s source length =
      judo_scan_body md
        { string := source, string_length := length, index := s.s_at,
          stream := s } := by
  unfold judo_scan judo_scan_body
  rw [if_neg hlen]

/-- One opening call: in the array-element-or-end state with a `[` at the
cursor and room on the stack, the scanner emits `ARRAY_BEGIN`, pushes a
frame and re-enters the array-element-or-end state. -/
theorem judo_scan_body_open (md : Nat) (sc : Scanner)
    (htop : sc.stream.s_state sc.stream.s_stack
      = SCAN_STATE_PARSE_ARRAY_END_OR_ARRAY_ELEMENT)
    (hb : sc.string sc.index = 91)
    (hlen : (sc.index : Int) + 1 ≤ sc.string_length) (h0 : 0 ≤ sc.string_length)
    (hcap : sc.index + 1 < JUDO_MAXIMUM_INPUT_SIZE)
    (hguard : sc.stream.s_stack + 1 < md) :
    judo_scan_body md sc =
      (JudoResult.success,
       { s_at := sc.index + 1, whereSpan := ⟨sc.index, 1⟩,
         token := JudoToken.arrayBegin, s_stack := sc.stream.s_stack + 1,
         s_state := fun i =>
           if i = sc.stream.s_stack + 1 then 3
           else if i = sc.stream.s_stack then 4 else sc.stream.s_state i,
         error := sc.stream.error }) := by
  unfold judo_scan_body
  dsimp only
  rw [judo_scan_entry_nonfin sc (by rw [htop]; decide)]
  dsimp only
  rw [if_pos rfl]
  rw [judo_scan_dispatch_arr md sc htop]
  unfold parse_array_element_or_array_end
  dsimp only
  rw [peek_lbrack sc hb hlen h0 hcap]
  dsimp only
  rw [if_pos rfl, if_neg (by decide)]
  unfold parse_array_element
  dsimp only
  rw [parse_value_at_lbrack md
    { sc with stream :=
        sc.stream.setTopState SCAN_STATE_FINISHED_PARSING_ARRAY_ELEMENT }
    "expected value" hb hlen h0 hcap hguard]
  rfl

/-- One closing call out of the array-element-or-end state: a `]` at the
cursor emits `ARRAY_END` and marks the value finished. -/
theorem judo_scan_body_close_top (md : Nat) (sc : Scanner)
    (htop : sc.stream.s_state sc.stream.s_stack
      = SCAN_STATE_PARSE_ARRAY_END_OR_ARRAY_ELEMENT)
    (hb : sc.string sc.index = 93)
    (hlen : (sc.index : Int) + 1 ≤ sc.string_length) (h0 : 0 ≤ sc.string_length)
    (hcap : sc.index + 1 < JUDO_MAXIMUM_INPUT_SIZE) :
    judo_scan_body md sc =
      (JudoResult.success,
       { s_at := sc.index + 1, whereSpan := ⟨sc.index, 1⟩,
         token := JudoToken.arrayEnd, s_stack := sc.stream.s_stack,
         s_state := fun i =>
           if i = sc.stream.s_stack then 1 else sc.stream.s_state i,
         error := sc.stream.error }) := by
  unfold judo_scan_body
  dsimp only
  rw [judo_scan_entry_nonfin sc (by rw [htop]; decide)]
  dsimp only
  rw [if_pos rfl]
  rw [judo_scan_dispatch_arr md sc htop]
  unfold parse_array_element_or_array_end
  dsimp only
  rw [peek_rbrack sc hb hlen h0 hcap]
  dsimp only
  rw [if_pos rfl, if_pos rfl]
  rfl

/-- One closing call out of the finished-value state with a non-empty stack:
pop a frame, then a `]` at the cursor closes the enclosing array. -/
theorem judo_scan_body_close_pop (md : Nat) (sc : Scanner)
    (htop : sc.stream.s_state sc.stream.s_stack
      = SCAN_STATE_FINISHED_PARSING_VALUE)
    (hnz : ¬ sc.stream.s_stack = 0)
    (hprev : sc.stream.s_state (sc.stream.s_stack - 1)
      = SCAN_STATE_FINISHED_PARSING_ARRAY_ELEMENT)
    (hb : sc.string sc.index = 93)
    (hlen : (sc.index : Int) + 1 ≤ sc.string_length) (h0 : 0 ≤ sc.string_length)
    (hcap : sc.index + 1 < JUDO_MAXIMUM_INPUT_SIZE) :
    judo_scan_body md sc =
      (JudoResult.success,
       { s_at := sc.index + 1, whereSpan := ⟨sc.index, 1⟩,
         token := JudoToken.arrayEnd, s_stack := sc.stream.s_stack - 1,
         s_state := fun i =>
           if i = sc.stream.s_stack - 1 then 1 else sc.stream.s_state i,
         error := sc.stream.error }) := by
  unfold judo_scan_body judo_scan_entry
  dsimp only
  rw [if_pos htop, if_neg hnz]
  dsimp only
  rw [if_pos rfl]
  rw [judo_scan_dispatch_finarr md
    { sc with stream := { sc.stream with s_stack := sc.stream.s_stack - 1 } }
    hprev]
  unfold finished_parsing_array_element
  dsimp only
  rw [peek_rbrack
    { sc with stream := { sc.stream with s_stack := sc.stream.s_stack - 1 } }
    hb hlen h0 hcap]
  dsimp only
  rw [if_pos rfl, if_neg (by decide), if_pos rfl]
  rfl

/-- The final call: finished value at the root, cursor at the end of the
input; emits EOF and enters the terminal `FINISHED_PARSING` state. -/
theorem judo_scan_body_eof (md : Nat) (sc : Scanner)
    (htop : sc.stream.s_state sc.stream.s_stack
      = SCAN_STATE_FINISHED_PARSING_VALUE)
    (hz : sc.stream.s_stack = 0)
    (h0 : 0 ≤ sc.string_length) (hle : sc.string_length ≤ (sc.index : Int)) :
    judo_scan_body md sc =
      (JudoResult.success,
       { s_at := sc.index, whereSpan := ⟨sc.index, 0⟩,
         token := JudoToken.eof, s_stack := sc.stream.s_stack,
         s_state := fun i =>
           if i = sc.stream.s_stack then 11 else sc.stream.s_state i,
         error := sc.stream.error }) := by
  unfold judo_scan_body judo_scan_entry
  dsimp only
  rw [if_pos htop, if_pos hz]
  rw [peek_at_end sc h0 hle]
  dsimp only
  rw [if_pos rfl, if_pos rfl, if_pos rfl]
  rw [judo_scan_dispatch_done md _ (setTopState_top _ _)]
  rfl

/-- The failing call: in the array-element-or-end state with a `[` at the
cursor but no room left on the stack, the scanner reports maximum nesting
with the `maximum nesting depth exceeded` message over the bracket. -/
theorem judo_scan_body_fail (md : Nat) (sc : Scanner)
    (htop : sc.stream.s_state sc.stream.s_stack
      = SCAN_STATE_PARSE_ARRAY_END_OR_ARRAY_ELEMENT)
    (hb : sc.string sc.index = 91)
    (hlen : (sc.index : Int) + 1 ≤ sc.string_length) (h0 : 0 ≤ sc.string_length)
    (hcap : sc.index + 1 < JUDO_MAXIMUM_INPUT_SIZE)
    (hguard : md - 1 ≤ sc.stream.s_stack) :
    (judo_scan_body md sc).1 = JudoResult.maximumNesting ∧
    (judo_scan_body md sc).2.error = "maximum nesting depth exceeded" ∧
    (judo_scan_body md sc).2.whereSpan = ⟨sc.index, 1⟩ := by
  unfold judo_scan_body
  dsimp only
  rw [judo_scan_entry_nonfin sc (by rw [htop]; decide)]
  dsimp only
  rw [if_pos rfl]
  rw [judo_scan_dispatch_arr md sc htop]
  unfold parse_array_element_or_array_end
  dsimp only
  rw [peek_lbrack sc hb hlen h0 hcap]
  dsimp only
  rw [if_pos rfl, if_neg (by decide)]
  unfold parse_array_element
  dsimp only
  rw [parse_value_guard md
    { sc with stream :=
        sc.stream.setTopState SCAN_STATE_FINISHED_PARSING_ARRAY_ELEMENT }
    "expected value" hguard]
  exact ⟨rfl, rfl, rfl⟩

end Judo

namespace Judo

/-- The root call on a `[`: `parse_root` skips no BOM, emits `ARRAY_BEGIN`
and enters the array-element-or-end state without touching the stack. -/
theorem judo_scan_body_root (md : Nat) (sc : Scanner)
    (htop : sc.stream.s_state sc.stream.s_stack = SCAN_STATE_ROOT_VALUE)
    (hbom : sc.string 0 ≠ 0xEF)
    (hb : sc.string sc.index = 91)
    (hlen : (sc.index : Int) + 1 ≤ sc.string_length) (h0 : 0 ≤ sc.string_length)
    (hcap : sc.index + 1 < JUDO_MAXIMUM_INPUT_SIZE) :
    judo_scan_body md sc =
      (JudoResult.success,
       { s_at := sc.index + 1, whereSpan := ⟨sc.index, 1⟩,
         token := JudoToken.arrayBegin, s_stack := sc.stream.s_stack,
         s_state := fun i =>
           if i = sc.stream.s_stack then 3 else sc.stream.s_state i,
         error := sc.stream.error }) := by
  unfold judo_scan_body
  dsimp only
  rw [judo_scan_entry_nonfin sc (by rw [htop]; decide)]
  dsimp only
  rw [if_pos rfl]
  rw [judo_scan_dispatch_root md sc htop]
  unfold parse_root
  dsimp only
  have hBOM : ¬(is_bounded sc.string sc.string_length sc.index 3 = Bool.true ∧
      sc.string 0 = 0xEF ∧ sc.string 1 = 0xBB ∧ sc.string 2 = 0xBF) :=
    fun hcon => hbom hcon.2.1
  rw [if_neg hBOM]
  rw [peek_lbrack sc hb hlen h0 hcap]
  dsimp only
  rw [if_pos rfl, if_pos rfl]
  rfl

theorem nest_len_ok (k : Nat) (hcap : 2 * k < JUDO_MAXIMUM_INPUT_SIZE) :
    ¬((JUDO_MAXIMUM_INPUT_SIZE : Int) ≤ ((2 * k : Nat) : Int)) := by
  intro hcon
  exact absurd (Nat.cast_le.mp hcon) (by omega)

/-- Call 1 on the nested-bracket input: the root array opens. -/
theorem judo_scan_nest_root (md k : Nat) (hk : 1 ≤ k)
    (hcap : 2 * k < JUDO_MAXIMUM_INPUT_SIZE) :
    judo_scan md zeroStream (nestSrc k) ((2 * k : Nat) : Int) =
      (JudoResult.success, openStream 1) := by
  have hb : nestSrc k 0 = 91 := by
    unfold nestSrc; rw [if_pos (by omega)]
  rw [judo_scan_eq_body md zeroStream (nestSrc k) _ (nest_len_ok k hcap)]
  rw [judo_scan_body_root md
    { string := nestSrc k, string_length := ((2 * k : Nat) : Int),
      index := zeroStream.s_at, stream := zeroStream }
    rfl (by show nestSrc k 0 ≠ 0xEF; rw [hb]; decide) hb
    (by show ((0 : Nat) : Int) + 1 ≤ ((2 * k : Nat) : Int); push_cast; omega)
    (Int.natCast_nonneg _)
    (by show 0 + 1 < JUDO_MAXIMUM_INPUT_SIZE; omega)]
  refine congrArg (Prod.mk JudoResult.success) (judoStream_eq ?_ ?_ ?_ ?_ ?_ ?_)
  · rfl
  · rfl
  · rfl
  · rfl
  · intro i
    unfold openStream zeroStream
    dsimp only
    have hlt : ¬ i < 1 - 1 := by omega
    by_cases h : i = 0
    · rw [if_pos h, if_neg hlt]
    · rw [if_neg h, if_neg hlt]
  · rfl

end Judo

namespace Judo

/-- Call `j + 1` on the nested-bracket input (opening phase). -/
theorem judo_scan_nest_open (md k j : Nat) (hj : 1 ≤ j) (hjk : j + 1 ≤ k)
    (hjmd : j + 1 ≤ md) (hcap : 2 * k < JUDO_MAXIMUM_INPUT_SIZE) :
    judo_scan md (openStream j) (nestSrc k) ((2 * k : Nat) : Int) =
      (JudoResult.success, openStream (j + 1)) := by
  have hb : nestSrc k j = 91 := by
    unfold nestSrc; rw [if_pos (by omega)]
  have htop : (openStream j).s_state (openStream j).s_stack
      = SCAN_STATE_PARSE_ARRAY_END_OR_ARRAY_ELEMENT := by
    unfold openStream
    dsimp only
    rw [if_neg (Nat.lt_irrefl _), if_pos rfl]
    rfl
  rw [judo_scan_eq_body md (openStream j) (nestSrc k) _ (nest_len_ok k hcap)]
  rw [judo_scan_body_open md
    { string := nestSrc k, string_length := ((2 * k : Nat) : Int),
      index := (openStream j).s_at, stream := openStream j }
    htop hb
    (by show ((j : Nat) : Int) + 1 ≤ ((2 * k : Nat) : Int); push_cast; omega)
    (Int.natCast_nonneg _)
    (by show j + 1 < JUDO_MAXIMUM_INPUT_SIZE; omega)
    (by show j - 1 + 1 < md; omega)]
  refine congrArg (Prod.mk JudoResult.success) (judoStream_eq ?_ ?_ ?_ ?_ ?_ ?_)
  · rfl
  · rfl
  · rfl
  · show j - 1 + 1 = j + 1 - 1
    omega
  · intro i
    unfold openStream
    dsimp only
    have e1 : j - 1 + 1 = j := by omega
    have e2 : j + 1 - 1 = j := by omega
    rw [e1, e2]
    by_cases h1 : i = j
    · have hnl : ¬ i < j := by omega
      rw [if_pos h1, if_neg hnl, if_pos h1]
    · rw [if_neg h1]
      by_cases h2 : i = j - 1
      · have hlt : i < j := by omega
        rw [if_pos h2, if_pos hlt]
      · rw [if_neg h2]
        by_cases h3 : i < j - 1
        · have hlt : i < j := by omega
          rw [if_pos h3, if_pos hlt]
        · have hnl : ¬ i < j := by omega
          rw [if_neg h3, if_neg h2, if_neg hnl, if_neg h1]
  · rfl

/-- Call `k + 1` on the nested-bracket input: the innermost array closes. -/
theorem judo_scan_nest_turn (md k : Nat) (hk : 1 ≤ k)
    (hcap : 2 * k < JUDO_MAXIMUM_INPUT_SIZE) :
    judo_scan md (openStream k) (nestSrc k) ((2 * k : Nat) : Int) =
      (JudoResult.success, closeStream k 1) := by
  have hb : nestSrc k k = 93 := by
    unfold nestSrc
    rw [if_neg (Nat.lt_irrefl _), if_pos (by omega)]
  have htop : (openStream k).s_state (openStream k).s_stack
      = SCAN_STATE_PARSE_ARRAY_END_OR_ARRAY_ELEMENT := by
    unfold openStream
    dsimp only
    rw [if_neg (Nat.lt_irrefl _), if_pos rfl]
    rfl
  rw [judo_scan_eq_body md (openStream k) (nestSrc k) _ (nest_len_ok k hcap)]
  rw [judo_scan_body_close_top md
    { string := nestSrc k, string_length := ((2 * k : Nat) : Int),
      index := (openStream k).s_at, stream := openStream k }
    htop hb
    (by show ((k : Nat) : Int) + 1 ≤ ((2 * k : Nat) : Int); push_cast; omega)
    (Int.natCast_nonneg _)
    (by show k + 1 < JUDO_MAXIMUM_INPUT_SIZE; omega)]
  refine congrArg (Prod.mk JudoResult.success) (judoStream_eq ?_ ?_ ?_ ?_ ?_ ?_)
  · rfl
  · rfl
  · rfl
  · rfl
  · intro i
    unfold openStream closeStream
    dsimp only
    by_cases h1 : i = k - 1
    · have hnl : ¬ i < k - 1 := by omega
      have hlt : i < k := by omega
      rw [if_pos h1, if_neg hnl, if_pos hlt]
    · rw [if_neg h1]
      by_cases h2 : i < k - 1
      · rw [if_pos h2, if_pos h2]
      · have hnk : ¬ i < k := by omega
        rw [if_neg h2, if_neg h1, if_neg h2, if_neg hnk]
  · rfl

/-- Call `k + j + 1` on the nested-bracket input (closing phase). -/
theorem judo_scan_nest_close (md k j : Nat) (hj : 1 ≤ j) (hjk : j + 1 ≤ k)
    (hcap : 2 * k < JUDO_MAXIMUM_INPUT_SIZE) :
    judo_scan md (closeStream k j) (nestSrc k) ((2 * k : Nat) : Int) =
      (JudoResult.success, closeStream k (j + 1)) := by
  have hb : nestSrc k (k + j) = 93 := by
    unfold nestSrc
    rw [if_neg (by omega), if_pos (by omega)]
  have htop : (closeStream k j).s_state (closeStream k j).s_stack
      = SCAN_STATE_FINISHED_PARSING_VALUE := by
    unfold closeStream
    dsimp only
    have h1 : ¬ (k - j < k - j) := Nat.lt_irrefl _
    have h2 : k - j < k := by omega
    rw [if_neg h1, if_pos h2]
    rfl
  have hprev : (closeStream k j).s_state ((closeStream k j).s_stack - 1)
      = SCAN_STATE_FINISHED_PARSING_ARRAY_ELEMENT := by
    unfold closeStream
    dsimp only
    have h1 : k - j - 1 < k - j := by omega
    rw [if_pos h1]
    rfl
  rw [judo_scan_eq_body md (closeStream k j) (nestSrc k) _ (nest_len_ok k hcap)]
  rw [judo_scan_body_close_pop md
    { string := nestSrc k, string_length := ((2 * k : Nat) : Int),
      index := (closeStream k j).s_at, stream := closeStream k j }
    htop (by show ¬ (k - j = 0); omega) hprev hb
    (by show ((k + j : Nat) : Int) + 1 ≤ ((2 * k : Nat) : Int); push_cast; omega)
    (Int.natCast_nonneg _)
    (by show k + j + 1 < JUDO_MAXIMUM_INPUT_SIZE; omega)]
  refine congrArg (Prod.mk JudoResult.success) (judoStream_eq ?_ ?_ ?_ ?_ ?_ ?_)
  · rfl
  · rfl
  · rfl
  · rfl
  · intro i
    unfold closeStream
    dsimp only
    have e1 : k - (j + 1) = k - j - 1 := by omega
    rw [e1]
    by_cases h1 : i = k - j - 1
    · have hnl : ¬ i < k - j - 1 := by omega
      have hlt : i < k := by omega
      rw [if_pos h1, if_neg hnl, if_pos hlt]
    · rw [if_neg h1]
      by_cases h2 : i < k - j - 1
      · have hlt : i < k - j := by omega
        rw [if_pos hlt, if_pos h2]
      · have hnl : ¬ i < k - j := by omega
        rw [if_neg hnl, if_neg h2]
  · rfl

/-- The final EOF call on the nested-bracket input. -/
theorem judo_scan_nest_eof (md k : Nat) (hk : 1 ≤ k)
    (hcap : 2 * k < JUDO_MAXIMUM_INPUT_SIZE) :
    judo_scan md (closeStream k k) (nestSrc k) ((2 * k : Nat) : Int) =
      (JudoResult.success, finStream k) := by
  have htop : (closeStream k k).s_state (closeStream k k).s_stack
      = SCAN_STATE_FINISHED_PARSING_VALUE := by
    unfold closeStream
    dsimp only
    have h1 : ¬ (k - k < k - k) := Nat.lt_irrefl _
    have h2 : k - k < k := by omega
    rw [if_neg h1, if_pos h2]
    rfl
  rw [judo_scan_eq_body md (closeStream k k) (nestSrc k) _ (nest_len_ok k hcap)]
  rw [judo_scan_body_eof md
    { string := nestSrc k, string_length := ((2 * k : Nat) : Int),
      index := (closeStream k k).s_at, stream := closeStream k k }
    htop (by show k - k = 0; omega)
    (Int.natCast_nonneg _)
    (by show ((2 * k : Nat) : Int) ≤ ((k + k : Nat) : Int); push_cast; omega)]
  refine congrArg (Prod.mk JudoResult.success) (judoStream_eq ?_ ?_ ?_ ?_ ?_ ?_)
  · show k + k = 2 * k
    omega
  · exact congrArg (fun x => JudoSpan.mk x 0) (by omega : k + k = 2 * k)
  · rfl
  · show k - k = 0
    omega
  · intro i
    unfold closeStream finStream
    dsimp only
    have e1 : k - k = 0 := by omega
    rw [e1]
    by_cases h1 : i = 0
    · rw [if_pos h1, if_pos h1]
    · have hnl : ¬ i < 0 := by omega
      rw [if_neg h1, if_neg h1, if_neg hnl]
  · rfl

/-- The failing call: with `nestSrc (md + 1)` the `md + 1`-st opening bracket
trips the nesting guard. -/
theorem judo_scan_nest_fail (md : Nat) (hmd : 1 ≤ md)
    (hcap : 2 * (md + 1) < JUDO_MAXIMUM_INPUT_SIZE) :
    (judo_scan md (openStream md) (nestSrc (md + 1))
        ((2 * (md + 1) : Nat) : Int)).1 = JudoResult.maximumNesting ∧
    (judo_scan md (openStream md) (nestSrc (md + 1))
        ((2 * (md + 1) : Nat) : Int)).2.error
      = "maximum nesting depth exceeded" ∧
    (judo_scan md (openStream md) (nestSrc (md + 1))
        ((2 * (md + 1) : Nat) : Int)).2.whereSpan = ⟨md, 1⟩ := by
  have hb : nestSrc (md + 1) md = 91 := by
    unfold nestSrc; rw [if_pos (by omega)]
  have htop : (openStream md).s_state (openStream md).s_stack
      = SCAN_STATE_PARSE_ARRAY_END_OR_ARRAY_ELEMENT := by
    unfold openStream
    dsimp only
    rw [if_neg (Nat.lt_irrefl _), if_pos rfl]
    rfl
  rw [judo_scan_eq_body md (openStream md) (nestSrc (md + 1)) _
    (nest_len_ok (md + 1) hcap)]
  have hfail := judo_scan_body_fail md
    { string := nestSrc (md + 1), string_length := ((2 * (md + 1) : Nat) : Int),
      index := (openStream md).s_at, stream := openStream md }
    htop hb
    (by show ((md : Nat) : Int) + 1 ≤ ((2 * (md + 1) : Nat) : Int); push_cast; omega)
    (Int.natCast_nonneg _)
    (by show md + 1 < JUDO_MAXIMUM_INPUT_SIZE; omega)
    (Nat.le_refl _)
  exact ⟨hfail.1, hfail.2.1, hfail.2.2⟩

end Judo

namespace Judo

/-- After `j` calls (opening phase) the stream is `openStream j`. -/
theorem judo_scan_iter_nest_open (md k : Nat) (hk : 1 ≤ k)
    (hcap : 2 * k < JUDO_MAXIMUM_INPUT_SIZE) :
    ∀ j, 1 ≤ j → j ≤ k → j ≤ md →
      judo_scan_iter md (nestSrc k) ((2 * k : Nat) : Int) j = openStream j := by
  intro j
  induction j with
  | zero => intro h1 _ _; exact absurd h1 (by decide)
  | succ j ih =>
      intro _ hjk hjmd
      show (judo_scan md (judo_scan_iter md (nestSrc k) ((2 * k : Nat) : Int) j)
        (nestSrc k) ((2 * k : Nat) : Int)).2 = _
      rcases Nat.eq_zero_or_pos j with hj0 | hjpos
      · subst hj0
        rw [show judo_scan_iter md (nestSrc k) ((2 * k : Nat) : Int) 0
            = zeroStream from rfl,
          judo_scan_nest_root md k hk hcap]
      · rw [ih hjpos (by omega) (by omega),
          judo_scan_nest_open md k j hjpos (by omega) (by omega) hcap]

/-- After `k + j` calls (closing phase) the stream is `closeStream k j`. -/
theorem judo_scan_iter_nest_close (md k : Nat) (hk : 1 ≤ k) (hkmd : k ≤ md)
    (hcap : 2 * k < JUDO_MAXIMUM_INPUT_SIZE) :
    ∀ j, 1 ≤ j → j ≤ k →
      judo_scan_iter md (nestSrc k) ((2 * k : Nat) : Int) (k + j)
        = closeStream k j := by
  intro j
  induction j with
  | zero => intro h1 _; exact absurd h1 (by decide)
  | succ j ih =>
      intro _ hjk
      show (judo_scan md (judo_scan_iter md (nestSrc k) ((2 * k : Nat) : Int) (k + j))
        (nestSrc k) ((2 * k : Nat) : Int)).2 = _
      rcases Nat.eq_zero_or_pos j with hj0 | hjpos
      · subst hj0
        rw [Nat.add_zero,
          judo_scan_iter_nest_open md k hk hcap k hk (Nat.le_refl k) hkmd,
          judo_scan_nest_turn md k hk hcap]
      · rw [ih hjpos (by omega),
          judo_scan_nest_close md k j hjpos (by omega) hcap]

/-- After all `2k` bracket calls the stream is `closeStream k k`. -/
theorem judo_scan_iter_nest_full (md k : Nat) (hk : 1 ≤ k) (hkmd : k ≤ md)
    (hcap : 2 * k < JUDO_MAXIMUM_INPUT_SIZE) :
    judo_scan_iter md (nestSrc k) ((2 * k : Nat) : Int) (2 * k)
      = closeStream k k := by
  have h := judo_scan_iter_nest_close md k hk hkmd hcap k hk (Nat.le_refl k)
  rw [show k + k = 2 * k from by omega] at h
  exact h

/-- `parse_value` reports maximum nesting exactly when the guard
`JUDO_MAXDEPTH - 1 ≤ s_stack` holds on entry. -/
theorem parse_value_max_nesting_iff (md : Nat) (sc : Scanner) (msg : String) :
    (parse_value md sc msg).1 = JudoResult.maximumNesting ↔
      md - 1 ≤ sc.stream.s_stack := by
  by_cases hg : md - 1 ≤ sc.stream.s_stack
  · exact iff_of_true (by rw [parse_value_guard md sc msg hg]; rfl) hg
  · refine iff_of_false ?_ hg
    intro hc
    unfold parse_value at hc
    rw [if_neg hg] at hc
    dsimp only at hc
    have hpk := (scanOut_peek
      { sc with stream := { sc.stream with s_stack := sc.stream.s_stack + 1 } }).2.2.2.2.2
    repeat' first
      | exact JudoResult.noConfusion hc
      | split at hc
    rcases hpk with h | h | h | h <;> (rw [h] at hc; exact JudoResult.noConfusion hc)

end Judo

namespace Judo

set_option maxHeartbeats 1000000 in
/-- C2: `JUDO_MAXDEPTH` enforcement.  For every nesting bound `md` and every
depth `k ≤ md` (sizes below the input cap): scanning the canonical depth-`k`
input `[[…[]…]]` from a zero-initialised stream succeeds on every one of its
`2k + 1` calls and ends at the EOF token, while the depth-`md + 1` input
reports maximum nesting on call `md + 1` with the error message
`maximum nesting depth exceeded`; and internally `parse_value` fails with
maximum nesting exactly when `s_stack ≥ JUDO_MAXDEPTH - 1` when a new value
is about to be started. -/
theorem judo_scan_maxdepth_enforcement (md k : Nat) (hk : 1 ≤ k)
    (hkmd : k ≤ md) (hcap : 2 * (md + 1) < JUDO_MAXIMUM_INPUT_SIZE) :
    (∀ n, n ≤ 2 * k →
       (judo_scan md (judo_scan_iter md (nestSrc k) ((2 * k : Nat) : Int) n)
         (nestSrc k) ((2 * k : Nat) : Int)).1 = JudoResult.success) ∧
    (judo_scan_iter md (nestSrc k) ((2 * k : Nat) : Int) (2 * k + 1)).token
      = JudoToken.eof ∧
    (judo_scan md (judo_scan_iter md (nestSrc (md + 1))
         ((2 * (md + 1) : Nat) : Int) md)
       (nestSrc (md + 1)) ((2 * (md + 1) : Nat) : Int)).1
      = JudoResult.maximumNesting ∧
    (judo_scan md (judo_scan_iter md (nestSrc (md + 1))
         ((2 * (md + 1) : Nat) : Int) md)
       (nestSrc (md + 1)) ((2 * (md + 1) : Nat) : Int)).2.error
      = "maximum nesting depth exceeded" ∧
    (∀ (sc : Scanner) (msg : String),
       (parse_value md sc msg).1 = JudoResult.maximumNesting ↔
         md - 1 ≤ sc.stream.s_stack) := by
  have hcapk : 2 * k < JUDO_MAXIMUM_INPUT_SIZE := by omega
  have hiterfail : judo_scan_iter md (nestSrc (md + 1))
      ((2 * (md + 1) : Nat) : Int) md = openStream md :=
    judo_scan_iter_nest_open md (md + 1) (by omega) hcap md (by omega)
      (by omega) (Nat.le_refl md)
  refine ⟨?_, ?_, ?_, ?_, parse_value_max_nesting_iff md⟩
  · intro n hn
    rcases Nat.eq_zero_or_pos n with h0 | hpos
    · subst h0
      rw [show judo_scan_iter md (nestSrc k) ((2 * k : Nat) : Int) 0
          = zeroStream from rfl,
        judo_scan_nest_root md k hk hcapk]
    · by_cases hnk : n < k
      · rw [judo_scan_iter_nest_open md k hk hcapk n hpos (by omega) (by omega),
          judo_scan_nest_open md k n hpos (by omega) (by omega) hcapk]
      · by_cases hek : n = k
        · rw [hek,
            judo_scan_iter_nest_open md k hk hcapk k hk (Nat.le_refl k) (by omega),
            judo_scan_nest_turn md k hk hcapk]
        · by_cases hlast : n = 2 * k
          · subst hlast
            rw [judo_scan_iter_nest_full md k hk hkmd hcapk,
              judo_scan_nest_eof md k hk hcapk]
          · have hrw : n = k + (n - k) := by omega
            rw [hrw,
              judo_scan_iter_nest_close md k hk hkmd hcapk (n - k) (by omega)
                (by omega),
              judo_scan_nest_close md k (n - k) (by omega) (by omega) hcapk]
  · show (judo_scan md (judo_scan_iter md (nestSrc k) ((2 * k : Nat) : Int) (2 * k))
      (nestSrc k) ((2 * k : Nat) : Int)).2.token = JudoToken.eof
    rw [judo_scan_iter_nest_full md k hk hkmd hcapk,
      judo_scan_nest_eof md k hk hcapk]
    rfl
  · rw [hiterfail]
    exact (judo_scan_nest_fail md (by omega) hcap).1
  · rw [hiterfail]
    exact (judo_scan_nest_fail md (by omega) hcap).2.1

end Judo

namespace Judo

theorem judo_scan_maxdepth_enforcement_witness :
    (1 ≤ 2 ∧ 2 ≤ 2 ∧ 2 * (2 + 1) < JUDO_MAXIMUM_INPUT_SIZE ∧ 3 ≤ 2 * 2) ∧
    (judo_scan 2 (judo_scan_iter 2 (nestSrc 2) ((2 * 2 : Nat) : Int) 3)
       (nestSrc 2) ((2 * 2 : Nat) : Int)).1 = JudoResult.success ∧
    (judo_scan_iter 2 (nestSrc 2) ((2 * 2 : Nat) : Int) (2 * 2 + 1)).token
      = JudoToken.eof ∧
    (judo_scan 2 (judo_scan_iter 2 (nestSrc (2 + 1))
         ((2 * (2 + 1) : Nat) : Int) 2)
       (nestSrc (2 + 1)) ((2 * (2 + 1) : Nat) : Int)).1
      = JudoResult.maximumNesting ∧
    ((parse_value 2
        { string := nestSrc 2, string_length := ((2 * 2 : Nat) : Int),
          index := 0, stream := zeroStream } "expected value").1
        = JudoResult.maximumNesting ↔
      2 - 1 ≤ zeroStream.s_stack) :=
  ⟨⟨by decide, by decide, by decide, by decide⟩,
   (judo_scan_maxdepth_enforcement 2 2 (by decide) (by decide) (by decide)).1 3
     (by decide),
   (judo_scan_maxdepth_enforcement 2 2 (by decide) (by decide) (by decide)).2.1,
   (judo_scan_maxdepth_enforcement 2 2 (by decide) (by decide) (by decide)).2.2.1,
   (judo_scan_maxdepth_enforcement 2 2 (by decide) (by decide) (by decide)).2.2.2.2
     { string := nestSrc 2, string_length := ((2 * 2 : Nat) : Int),
       index := 0, stream := zeroStream } "expected value"⟩

end Judo
